import Mathlib

/-!
Verification of the browser client synchronization layer of the
`damsels-assets` repository (the `SpacetimeDBClient` WebSocket class):
the row wire decoder (`parseRow` and the variant decoders), the per-table
mirror reconciliation (`applyTableUpdate`), the connection/reconnection
state machine (`connect`/`attemptReconnect`/`handleIdentityToken`/
`disconnect`), the derived room-availability view
(`getRoomAvailableActivities`), current-user resolution
(`getCurrentUser`/`getUserFromCache`), the reducer gateway response
handling (`callReducer`) and `logoutUser`.

JavaScript data is modelled by the `JSValue` type; host builtins that the
client merely calls through (`JSON.parse`, `JSON.stringify`) are passed as
explicit function parameters.  Stateful methods become pure functions from
a state record to a state record plus a list of emitted effects
(callbacks, timers, socket frames).
-/

/-- JavaScript values as handled by the client, restricted to the
JSON-shaped data that flows through the wire decoder.  `undefined` is kept
distinct from `null` because the source distinguishes them
(`parsed?.id !== undefined`). -/
inductive JSValue where
  | undefined : JSValue
  | null : JSValue
  | bool (b : Bool) : JSValue
  | num (n : Int) : JSValue
  | str (s : String) : JSValue
  | arr (elems : List JSValue) : JSValue
  | obj (fields : List (String × JSValue)) : JSValue

mutual

/-- Structural equality on `JSValue`, mirroring JavaScript `===` on the
primitive values that actually occur as row ids and field contents. -/
def JSValue.beq : JSValue → JSValue → Bool
  | .undefined, .undefined => true
  | .null, .null => true
  | .bool a, .bool b => a == b
  | .num a, .num b => a == b
  | .str a, .str b => a == b
  | .arr as, .arr bs => JSValue.beqList as bs
  | .obj as, .obj bs => JSValue.beqFields as bs
  | _, _ => false

def JSValue.beqList : List JSValue → List JSValue → Bool
  | [], [] => true
  | a :: as, b :: bs => JSValue.beq a b && JSValue.beqList as bs
  | _, _ => false

def JSValue.beqFields : List (String × JSValue) → List (String × JSValue) → Bool
  | [], [] => true
  | (k, a) :: as, (l, b) :: bs => k == l && JSValue.beq a b && JSValue.beqFields as bs
  | _, _ => false

end

mutual

theorem JSValue.eq_of_beq : ∀ {a b : JSValue}, JSValue.beq a b = true → a = b
  | .undefined, .undefined, _ => rfl
  | .null, .null, _ => rfl
  | .bool _, .bool _, h => by simpa [JSValue.beq] using h
  | .num _, .num _, h => by simpa [JSValue.beq] using h
  | .str _, .str _, h => by simpa [JSValue.beq] using h
  | .arr as, .arr bs, h => by
      rw [JSValue.eq_of_beqList (show JSValue.beqList as bs = true by
        simpa [JSValue.beq] using h)]
  | .obj as, .obj bs, h => by
      rw [JSValue.eq_of_beqFields (show JSValue.beqFields as bs = true by
        simpa [JSValue.beq] using h)]

theorem JSValue.eq_of_beqList : ∀ {as bs : List JSValue}, JSValue.beqList as bs = true → as = bs
  | [], [], _ => rfl
  | a :: as, b :: bs, h => by
      have h' := h
      simp only [JSValue.beqList, Bool.and_eq_true] at h'
      rw [JSValue.eq_of_beq h'.1, JSValue.eq_of_beqList h'.2]

theorem JSValue.eq_of_beqFields :
    ∀ {as bs : List (String × JSValue)}, JSValue.beqFields as bs = true → as = bs
  | [], [], _ => rfl
  | (k, a) :: as, (l, b) :: bs, h => by
      have h' := h
      simp only [JSValue.beqFields, Bool.and_eq_true, beq_iff_eq] at h'
      rw [h'.1.1, JSValue.eq_of_beq h'.1.2, JSValue.eq_of_beqFields h'.2]

end

mutual

theorem JSValue.beq_refl : ∀ a : JSValue, JSValue.beq a a = true
  | .undefined => rfl
  | .null => rfl
  | .bool _ => by simp [JSValue.beq]
  | .num _ => by simp [JSValue.beq]
  | .str _ => by simp [JSValue.beq]
  | .arr as => by simpa [JSValue.beq] using JSValue.beqList_refl as
  | .obj as => by simpa [JSValue.beq] using JSValue.beqFields_refl as

theorem JSValue.beqList_refl : ∀ as : List JSValue, JSValue.beqList as as = true
  | [] => rfl
  | a :: as => by simp [JSValue.beqList, JSValue.beq_refl a, JSValue.beqList_refl as]

theorem JSValue.beqFields_refl : ∀ as : List (String × JSValue), JSValue.beqFields as as = true
  | [] => rfl
  | (k, a) :: as => by
      simp [JSValue.beqFields, JSValue.beq_refl a, JSValue.beqFields_refl as]

end

instance : BEq JSValue := ⟨JSValue.beq⟩

instance : LawfulBEq JSValue where
  eq_of_beq := JSValue.eq_of_beq
  rfl := JSValue.beq_refl _

instance : DecidableEq JSValue := fun a b =>
  decidable_of_iff (JSValue.beq a b = true) ⟨JSValue.eq_of_beq, fun h => h ▸ JSValue.beq_refl a⟩

/-- JavaScript truthiness of a `JSValue` (`undefined`, `null`, `false`,
`0` and the empty string are falsy; arrays and objects are truthy). -/
def truthy : JSValue → Bool
  | .undefined => false
  | .null => false
  | .bool b => b
  | .num n => !(n == 0)
  | .str s => !(s == "")
  | .arr _ => true
  | .obj _ => true

/-- JavaScript property access `v[name]`: `undefined` when the receiver is
not an object or lacks the key. -/
def getField (v : JSValue) (name : String) : JSValue :=
  match v with
  | .obj fields =>
      match fields.find? (fun p => p.1 == name) with
      | some p => p.2
      | none => .undefined
  | _ => .undefined

/-- JavaScript indexing `elems[i]` on an array: `undefined` out of bounds. -/
def atIdx : List JSValue → Nat → JSValue
  | [], _ => .undefined
  | x :: _, 0 => x
  | _ :: xs, n + 1 => atIdx xs n

/-- Whether a `JSValue` is a number (`typeof v === 'number'`). -/
def isNum : JSValue → Bool
  | .num _ => true
  | _ => false

/-- The `unwrap` helper of `parseRow`: unwraps the SpacetimeDB Option
encoding `[0, value]` / `[1, _]`, single-element arrays, `__identity__`
objects and `__timestamp_micros_since_unix_epoch__` objects. -/
def unwrap (val : JSValue) : JSValue :=
  match val with
  | .undefined => .undefined
  | .null => .null
  | .arr [a, b] =>
      if isNum a then
        if a == .num 0 then b
        else if a == .num 1 then .null
        else .arr [a, b]
      else .arr [a, b]
  | .arr [a] => a
  | .obj fields =>
      if truthy (getField (.obj fields) "__identity__") then
        getField (.obj fields) "__identity__"
      else if getField (.obj fields) "__timestamp_micros_since_unix_epoch__" != .undefined then
        getField (.obj fields) "__timestamp_micros_since_unix_epoch__"
      else .obj fields
  | v => v

/-- `parseKind`: decodes the Skill/Activity variant from the ordinal-array
shape, the single-key-object shape or an already-resolved name, with
default name `"Activity"`. -/
def parseKind (kindValue : JSValue) : JSValue :=
  match kindValue with
  | .arr elems =>
      match atIdx elems 0 with
      | .num n =>
          if n == 0 then .str "Skill"
          else if n == 1 then .str "Activity"
          else .str "Activity"
      | _ => .str "Activity"
  | .obj fields =>
      match fields with
      | [] => .str "Activity"
      | (k, _) :: _ => if k == "" then .str "Activity" else .str k
  | v => if truthy v then v else .str "Activity"

/-- `parseActivityStatus`: Locked/Available/Completed variant decode with
default name `"Available"`. -/
def parseActivityStatus (statusValue : JSValue) : JSValue :=
  match statusValue with
  | .arr elems =>
      match atIdx elems 0 with
      | .num n =>
          if n == 0 then .str "Locked"
          else if n == 1 then .str "Available"
          else if n == 2 then .str "Completed"
          else .str "Available"
      | _ => .str "Available"
  | .obj fields =>
      match fields with
      | [] => .str "Available"
      | (k, _) :: _ => if k == "" then .str "Available" else .str k
  | v => if truthy v then v else .str "Available"

/-- `parseRoomActivityStatus`: Viewing/InProgress/Completed/Cancelled
variant decode with default name `"Viewing"`. -/
def parseRoomActivityStatus (statusValue : JSValue) : JSValue :=
  match statusValue with
  | .arr elems =>
      match atIdx elems 0 with
      | .num n =>
          if n == 0 then .str "Viewing"
          else if n == 1 then .str "InProgress"
          else if n == 2 then .str "Completed"
          else if n == 3 then .str "Cancelled"
          else .str "Viewing"
      | _ => .str "Viewing"
  | .obj fields =>
      match fields with
      | [] => .str "Viewing"
      | (k, _) :: _ => if k == "" then .str "Viewing" else .str k
  | v => if truthy v then v else .str "Viewing"

/-- Ordinal-to-name table shared by both number branches of `parseRole`. -/
def roleNameOf (n : Int) : String :=
  if n == 0 then "Top"
  else if n == 1 then "Bottom"
  else if n == 2 then "Observer"
  else if n == 3 then "Photographer"
  else "Observer"

/-- `parseRole`: Top/Bottom/Observer/Photographer variant decode with
default name `"Observer"`; unlike the other variant decoders it also
accepts a bare number ordinal. -/
def parseRole (roleValue : JSValue) : JSValue :=
  match roleValue with
  | .arr elems =>
      match atIdx elems 0 with
      | .num n => .str (roleNameOf n)
      | _ => .str "Observer"
  | .obj fields =>
      match fields with
      | [] => .str "Observer"
      | (k, _) :: _ => if k == "" then .str "Observer" else .str k
  | .num n => .str (roleNameOf n)
  | v => if truthy v then v else .str "Observer"

/-- The keyed-object branch of `parseRow` (rows addressed by fixed
snake_case field names); one case per mirrored table, unknown tables
returned unchanged. -/
def parseRowObj (tableName : String) (row : JSValue) : JSValue :=
  if tableName == "user" then
    .obj [("id", getField row "id"), ("identity", unwrap (getField row "identity")),
          ("username", getField row "username"), ("passwordHash", getField row "password_hash"),
          ("role", getField row "role"), ("createdAt", unwrap (getField row "created_at")),
          ("lastSeen", unwrap (getField row "last_seen"))]
  else if tableName == "player" then
    .obj [("id", getField row "id"), ("userId", getField row "user_id"),
          ("username", getField row "username"), ("xp", getField row "xp"),
          ("createdAt", unwrap (getField row "created_at"))]
  else if tableName == "room" then
    .obj [("id", getField row "id"), ("code", getField row "code"),
          ("name", getField row "name"), ("ownerId", getField row "owner_id"),
          ("isOpen", getField row "is_open"), ("createdAt", unwrap (getField row "created_at"))]
  else if tableName == "room_member" then
    .obj [("id", getField row "id"), ("roomId", getField row "room_id"),
          ("playerId", getField row "player_id"), ("role", parseRole (getField row "role")),
          ("joinedAt", unwrap (getField row "joined_at"))]
  else if tableName == "room_invitation" then
    .obj [("id", getField row "id"), ("roomId", getField row "room_id"),
          ("token", getField row "token"), ("createdBy", getField row "created_by"),
          ("forUsername", getField row "for_username"), ("status", getField row "status"),
          ("createdAt", unwrap (getField row "created_at")),
          ("acceptedBy", getField row "accepted_by")]
  else if tableName == "category" then
    .obj [("id", getField row "id"), ("name", getField row "name"),
          ("description", getField row "description"),
          ("displayOrder", getField row "display_order")]
  else if tableName == "activity" then
    .obj [("id", getField row "id"), ("categoryId", getField row "category_id"),
          ("kind", parseKind (getField row "kind")), ("name", getField row "name"),
          ("description", getField row "description"),
          ("instructions", getField row "instructions"),
          ("videoUrl", unwrap (getField row "video_url")),
          ("xpRequired", getField row "xp_required"), ("xpReward", getField row "xp_reward")]
  else if tableName == "player_activity" then
    .obj [("id", getField row "id"), ("playerId", getField row "player_id"),
          ("activityId", getField row "activity_id"),
          ("status", parseActivityStatus (getField row "status")),
          ("completedAt", unwrap (getField row "completed_at")),
          ("completedBy", getField row "completed_by"), ("vouched", getField row "vouched"),
          ("rating", getField row "rating")]
  else if tableName == "player_unlocked_activity" then
    .obj [("id", getField row "id"), ("playerId", getField row "player_id"),
          ("activityId", getField row "activity_id"),
          ("activityName", getField row "activity_name"),
          ("activityDescription", getField row "activity_description"),
          ("categoryId", getField row "category_id"),
          ("categoryName", getField row "category_name"),
          ("kind", parseKind (getField row "kind")),
          ("xpRequired", getField row "xp_required"), ("xpReward", getField row "xp_reward"),
          ("unlockedAt", unwrap (getField row "unlocked_at")),
          ("isNew", getField row "is_new")]
  else if tableName == "room_activity" then
    .obj [("id", getField row "id"), ("roomId", getField row "room_id"),
          ("activityId", getField row "activity_id"),
          ("status", parseRoomActivityStatus (getField row "status")),
          ("startedBy", getField row "started_by"),
          ("createdAt", unwrap (getField row "created_at")),
          ("startedAt", unwrap (getField row "started_at")),
          ("completedAt", unwrap (getField row "completed_at"))]
  else if tableName == "activity_participant" then
    .obj [("id", getField row "id"), ("roomActivityId", getField row "room_activity_id"),
          ("playerId", getField row "player_id"), ("role", parseRole (getField row "role")),
          ("xpEarned", getField row "xp_earned"), ("completed", getField row "completed")]
  else if tableName == "player_not_wanted_activity" then
    .obj [("id", getField row "id"), ("playerId", getField row "player_id"),
          ("activityId", getField row "activity_id"),
          ("createdAt", unwrap (getField row "created_at"))]
  else if tableName == "user_category_preference" then
    .obj [("id", getField row "id"), ("userId", getField row "user_id"),
          ("categoryId", getField row "category_id")]
  else if tableName == "player_category_preference" then
    .obj [("id", getField row "id"), ("playerId", getField row "player_id"),
          ("categoryId", getField row "category_id")]
  else row

/-- The positional-array branch of `parseRow` (fields addressed by fixed
index per table); every field goes through `unwrap` except the variant
fields, which go through their dedicated decoders, and the raw-kept
`user.role` / `room_invitation.status`. -/
def parseRowArr (tableName : String) (row : JSValue) : JSValue :=
  let idx := fun i =>
    match row with
    | .arr elems => atIdx elems i
    | _ => .undefined
  if tableName == "user" then
    .obj [("id", unwrap (idx 0)), ("identity", unwrap (idx 1)),
          ("username", unwrap (idx 2)), ("passwordHash", unwrap (idx 3)),
          ("role", idx 4), ("createdAt", unwrap (idx 5)), ("lastSeen", unwrap (idx 6))]
  else if tableName == "player" then
    .obj [("id", unwrap (idx 0)), ("userId", unwrap (idx 1)), ("username", unwrap (idx 2)),
          ("xp", unwrap (idx 3)), ("createdAt", unwrap (idx 4))]
  else if tableName == "room" then
    .obj [("id", unwrap (idx 0)), ("code", unwrap (idx 1)), ("name", unwrap (idx 2)),
          ("ownerId", unwrap (idx 3)), ("isOpen", unwrap (idx 4)),
          ("createdAt", unwrap (idx 5))]
  else if tableName == "room_member" then
    .obj [("id", unwrap (idx 0)), ("roomId", unwrap (idx 1)), ("playerId", unwrap (idx 2)),
          ("role", parseRole (idx 3)), ("joinedAt", unwrap (idx 4))]
  else if tableName == "room_invitation" then
    .obj [("id", unwrap (idx 0)), ("roomId", unwrap (idx 1)), ("token", unwrap (idx 2)),
          ("createdBy", unwrap (idx 3)), ("forUsername", unwrap (idx 4)),
          ("status", idx 5), ("createdAt", unwrap (idx 6)), ("acceptedBy", unwrap (idx 7))]
  else if tableName == "category" then
    .obj [("id", unwrap (idx 0)), ("name", unwrap (idx 1)),
          ("description", unwrap (idx 2)), ("displayOrder", unwrap (idx 3))]
  else if tableName == "activity" then
    .obj [("id", unwrap (idx 0)), ("categoryId", unwrap (idx 1)),
          ("kind", parseKind (idx 2)), ("name", unwrap (idx 3)),
          ("description", unwrap (idx 4)), ("instructions", unwrap (idx 5)),
          ("videoUrl", unwrap (idx 6)), ("xpRequired", unwrap (idx 7)),
          ("xpReward", unwrap (idx 8))]
  else if tableName == "player_activity" then
    .obj [("id", unwrap (idx 0)), ("playerId", unwrap (idx 1)),
          ("activityId", unwrap (idx 2)), ("status", parseActivityStatus (idx 3)),
          ("completedAt", unwrap (idx 4)), ("completedBy", unwrap (idx 5)),
          ("vouched", unwrap (idx 6)), ("rating", unwrap (idx 7))]
  else if tableName == "player_unlocked_activity" then
    .obj [("id", unwrap (idx 0)), ("playerId", unwrap (idx 1)),
          ("activityId", unwrap (idx 2)), ("activityName", unwrap (idx 3)),
          ("activityDescription", unwrap (idx 4)), ("categoryId", unwrap (idx 5)),
          ("categoryName", unwrap (idx 6)), ("kind", parseKind (idx 7)),
          ("xpRequired", unwrap (idx 8)), ("xpReward", unwrap (idx 9)),
          ("unlockedAt", unwrap (idx 10)), ("isNew", unwrap (idx 11))]
  else if tableName == "room_activity" then
    .obj [("id", unwrap (idx 0)), ("roomId", unwrap (idx 1)),
          ("activityId", unwrap (idx 2)), ("status", parseRoomActivityStatus (idx 3)),
          ("startedBy", unwrap (idx 4)), ("createdAt", unwrap (idx 5)),
          ("startedAt", unwrap (idx 6)), ("completedAt", unwrap (idx 7))]
  else if tableName == "activity_participant" then
    .obj [("id", unwrap (idx 0)), ("roomActivityId", unwrap (idx 1)),
          ("playerId", unwrap (idx 2)), ("role", parseRole (idx 3)),
          ("xpEarned", unwrap (idx 4)), ("completed", unwrap (idx 5))]
  else if tableName == "player_not_wanted_activity" then
    .obj [("id", unwrap (idx 0)), ("playerId", unwrap (idx 1)),
          ("activityId", unwrap (idx 2)), ("createdAt", unwrap (idx 3))]
  else if tableName == "user_category_preference" then
    .obj [("id", unwrap (idx 0)), ("userId", unwrap (idx 1)), ("categoryId", unwrap (idx 2))]
  else if tableName == "player_category_preference" then
    .obj [("id", unwrap (idx 0)), ("playerId", unwrap (idx 1)), ("categoryId", unwrap (idx 2))]
  else row

/-- The body of `parseRow` after the JSON-string unwrapping: non-array
objects take the keyed branch, arrays take the positional branch, any
other value is returned unchanged (the array-like `Array.from` conversion
in the source is unreachable for non-objects and is the identity here). -/
def parseRowCore (tableName : String) (row : JSValue) : JSValue :=
  match row with
  | .obj fields => parseRowObj tableName (.obj fields)
  | .arr elems => parseRowArr tableName (.arr elems)
  | v => v

/-- `parseRow`: stringified rows are first put through the host
`JSON.parse` (passed in as `jsonParse`; `none` models a parse exception,
which the source catches by returning `null`), then dispatched on shape. -/
def parseRow (jsonParse : String → Option JSValue) (tableName : String) (row : JSValue) :
    JSValue :=
  match row with
  | .str s =>
      match jsonParse s with
      | some v => parseRowCore tableName v
      | none => .null
  | v => parseRowCore tableName v

/-- One element of the nested `updates` array of the new SpacetimeDB
table-update format: an insert list / delete list pair, either possibly
absent. -/
structure SubUpdate where
  inserts : Option (List JSValue)
  deletes : Option (List JSValue)

/-- One per-table update of an inbound message: the old flat format keeps
`inserts`/`deletes` at top level, the new format nests them under
`updates`; `applyTableUpdate` accepts both at once. -/
structure TableUpdate where
  table_name : String
  inserts : Option (List JSValue)
  deletes : Option (List JSValue)
  updates : Option (List SubUpdate)

/-- The flattened insert list of a batch: top-level `inserts` followed by
the concatenation of each nested update's `inserts`, in payload order. -/
def flatInserts (tu : TableUpdate) : List JSValue :=
  (tu.updates.getD []).foldl (fun acc u => acc ++ u.inserts.getD []) (tu.inserts.getD [])

/-- The flattened delete list of a batch, built the same way. -/
def flatDeletes (tu : TableUpdate) : List JSValue :=
  (tu.updates.getD []).foldl (fun acc u => acc ++ u.deletes.getD []) (tu.deletes.getD [])

/-- One id-keyed mirror store (a JavaScript `Map` in the source), as an
insertion-ordered association list. -/
abbrev Store := List (JSValue × JSValue)

/-- `Map.get`: the value stored under a key. -/
def mapGet (m : Store) (k : JSValue) : Option JSValue :=
  match (m : List (JSValue × JSValue)).find? (fun e => e.1 == k) with
  | some e => some e.2
  | none => none

/-- `Map.set`: overwrite in place when the key is present (keeping its
position, as JavaScript `Map` does), append otherwise. -/
def mapSet (m : Store) (k v : JSValue) : Store :=
  if (m : List (JSValue × JSValue)).any (fun e => e.1 == k) then
    (m : List (JSValue × JSValue)).map (fun e => if e.1 == k then (k, v) else e)
  else (m : List (JSValue × JSValue)) ++ [(k, v)]

/-- `Map.delete`: drop every entry stored under the key. -/
def mapDelete (m : Store) (k : JSValue) : Store :=
  (m : List (JSValue × JSValue)).filter (fun e => !(e.1 == k))

/-- The optional-chain `parsed?.id` of the source: `undefined` when the
parsed row is `null`/`undefined`, the `id` property otherwise. -/
def optChainId (parsed : JSValue) : JSValue :=
  match parsed with
  | .undefined => .undefined
  | .null => .undefined
  | v => getField v "id"

/-- Processing of one raw delete row: parse it, and drop the store entry
for its id unless the id decoded to `undefined` (such rows are skipped). -/
def applyDeleteRow (jsonParse : String → Option JSValue) (tableName : String)
    (store : Store) (row : JSValue) : Store :=
  if optChainId (parseRow jsonParse tableName row) != .undefined then
    mapDelete store (optChainId (parseRow jsonParse tableName row))
  else store

/-- Processing of one raw insert row: parse it, and store it under its id
unless the id decoded to `undefined` (such rows are skipped). -/
def applyInsertRow (jsonParse : String → Option JSValue) (tableName : String)
    (store : Store) (row : JSValue) : Store :=
  if optChainId (parseRow jsonParse tableName row) != .undefined then
    mapSet store (optChainId (parseRow jsonParse tableName row)) (parseRow jsonParse tableName row)
  else store

/-- The whole client cache at the wire level: one store per mirrored table
name, `none` for unknown table names. -/
abbrev WireCache := String → Option Store

/-- `applyTableUpdate`: ignore unknown tables, flatten the two payload
formats, then process ALL deletes first and ALL inserts second. -/
def applyTableUpdate (jsonParse : String → Option JSValue) (cache : WireCache)
    (tu : TableUpdate) : WireCache :=
  match cache tu.table_name with
  | none => cache
  | some store =>
      let afterDeletes := (flatDeletes tu).foldl (applyDeleteRow jsonParse tu.table_name) store
      let afterInserts := (flatInserts tu).foldl (applyInsertRow jsonParse tu.table_name) afterDeletes
      fun t => if t == tu.table_name then some afterInserts else cache t

/-- `localStorage.setItem`. -/
def storageSetItem (st : List (String × JSValue)) (k : String) (v : JSValue) :
    List (String × JSValue) :=
  if st.any (fun e => e.1 == k) then st.map (fun e => if e.1 == k then (k, v) else e)
  else st ++ [(k, v)]

/-- `localStorage.removeItem`. -/
def storageRemoveItem (st : List (String × JSValue)) (k : String) : List (String × JSValue) :=
  st.filter (fun e => !(e.1 == k))

/-- `localStorage.getItem`: `null` when the key is absent. -/
def storageGetItem (st : List (String × JSValue)) (k : String) : JSValue :=
  match st.find? (fun e => e.1 == k) with
  | some e => e.2
  | none => .null

/-- Lowercase hexadecimal digits of a natural number, as JavaScript
`Number.prototype.toString(16)` produces for non-negative integers. -/
def natHex (n : Nat) : String :=
  String.mk (Nat.toDigits 16 n)

/-- JavaScript `n.toString(16)` on an integer (negative numbers get a
leading minus sign). -/
def intHexString (n : Int) : String :=
  if n < 0 then "-" ++ natHex (-n).toNat else natHex n.toNat

/-- JavaScript `s.padStart(2, '0')`. -/
def padTwo (s : String) : String :=
  if s.length == 0 then "00" else if s.length == 1 then "0" ++ s else s

/-- One byte of an identity byte array rendered as two hex digits
(`b.toString(16).padStart(2, '0')`).  Only numeric entries occur in the
wire data; other entry kinds would hit host string coercion. -/
def hexByte : JSValue → String
  | .num n => padTwo (intHexString n)
  | _ => ""

/-- The `__identity_bytes` decode: hex-encode the entries of the byte
array (`Array.from(..).map(..).join('')`). -/
def bytesHex : JSValue → String
  | .arr elems => String.join (elems.map hexByte)
  | _ => ""

/-- The identity-decoding prelude of `handleIdentityToken`: objects are
unwrapped through `__identity__`, `__identity_bytes` or element-wise hex
encoding, any other object through the host `JSON.stringify` (passed in
as `stringify`); non-objects are kept as-is. -/
def decodeIdentity (stringify : JSValue → String) (identity : JSValue) : JSValue :=
  match identity with
  | .obj fields =>
      if truthy (getField (.obj fields) "__identity__") then
        getField (.obj fields) "__identity__"
      else if truthy (getField (.obj fields) "__identity_bytes") then
        .str (bytesHex (getField (.obj fields) "__identity_bytes"))
      else .str (stringify (.obj fields))
  | .arr elems =>
      if truthy (getField (.arr elems) "__identity__") then
        getField (.arr elems) "__identity__"
      else if truthy (getField (.arr elems) "__identity_bytes") then
        .str (bytesHex (getField (.arr elems) "__identity_bytes"))
      else .str (String.join (elems.map hexByte))
  | v => v

/-- The two fixed persisted-state keys (`this.storageKeys`). -/
def storageKeyIdentity : String := "stdb_identity"

def storageKeyToken : String := "stdb_token"

/-- The mutable fields of the `SpacetimeDBClient` instance that the
connection/reconnection logic and `logoutUser` read and write, plus the
browser `localStorage` it persists into.  `ws` is `none` when the socket
field is `null` and `some b` for a socket whose readyState is OPEN iff
`b`; `reconnectTimeoutId` records only the truthiness of the stored
timer handle. -/
structure ClientState where
  identity : JSValue
  token : JSValue
  storage : List (String × JSValue)
  ws : Option Bool
  reconnectAttempts : Nat
  maxReconnectAttempts : Nat
  reconnectDelay : Nat
  isReconnecting : Bool
  intentionalDisconnect : Bool
  reconnectTimeoutId : Bool
  subscriptionCounter : Nat
  cache : WireCache
  categoriesLoaded : Bool

/-- Externally visible actions the connection manager performs: socket
frames, timers and observer callbacks.  Throwing is not among them: every
modelled routine returns normally. -/
inductive Effect where
  | sendSubscribe (queryStrings : List String) (requestId : Nat)
  | callbackConnect
  | callbackDisconnect
  | callbackError
  | scheduleReconnect (delayMs : Nat)
  | clearReconnectTimer
  | closeSocket
deriving DecidableEq

/-- `sendSubscription`: drop the frame unless the socket is open,
otherwise bump the strictly-increasing request counter and emit a
`Subscribe` frame carrying it. -/
def sendSubscription (s : ClientState) (queries : List String) : ClientState × List Effect :=
  if s.ws == some true then
    let c := s.subscriptionCounter + 1
    ({ s with subscriptionCounter := c }, [.sendSubscribe queries c])
  else (s, [])

def categoryQueries : List String := ["SELECT * FROM category"]

def remainingTableQueries : List String :=
  ["SELECT * FROM user", "SELECT * FROM player", "SELECT * FROM room",
   "SELECT * FROM room_member", "SELECT * FROM room_invitation",
   "SELECT * FROM activity", "SELECT * FROM player_activity",
   "SELECT * FROM player_unlocked_activity", "SELECT * FROM room_activity",
   "SELECT * FROM activity_participant", "SELECT * FROM player_not_wanted_activity",
   "SELECT * FROM user_category_preference", "SELECT * FROM player_category_preference"]

/-- The `ws.onopen` handler installed by `connect`: it zeroes the
reconnect attempt counter, sends the category subscription, then the
batch subscription for the remaining tables, then fires the `onConnect`
observer callback. -/
def wsOnOpen (s : ClientState) : ClientState × List Effect :=
  let s1 := { s with reconnectAttempts := 0 }
  let p1 := sendSubscription s1 categoryQueries
  let p2 := sendSubscription p1.1 remainingTableQueries
  (p2.1, p1.2 ++ p2.2 ++ [.callbackConnect])

/-- `attemptReconnect`: no-op while a reconnect is already scheduled or
after an intentional disconnect; give up silently once the attempt
counter has reached the configured maximum; otherwise increment the
counter and schedule a retry after `min(base * 2^(attempts-1), 30000)`
milliseconds. -/
def attemptReconnect (s : ClientState) : ClientState × List Effect :=
  if s.isReconnecting then (s, [])
  else if s.intentionalDisconnect then (s, [])
  else if s.maxReconnectAttempts ≤ s.reconnectAttempts then
    ({ s with isReconnecting := false }, [])
  else
    let attempts := s.reconnectAttempts + 1
    let delay := min (s.reconnectDelay * 2 ^ (attempts - 1)) 30000
    ({ s with isReconnecting := true, reconnectAttempts := attempts,
              reconnectTimeoutId := true },
     [.scheduleReconnect delay])

/-- The payload of an `IdentityToken` server frame. -/
structure IdentityTokenMsg where
  identity : JSValue
  token : JSValue

/-- `handleIdentityToken`: decode the identity, store identity and token
both in memory and in `localStorage`, and reset the reconnect attempt
counter when it was positive. -/
def handleIdentityToken (stringify : JSValue → String) (s : ClientState)
    (data : IdentityTokenMsg) : ClientState :=
  let ident := decodeIdentity stringify data.identity
  let s1 := { s with
      identity := ident, token := data.token,
      storage := storageSetItem (storageSetItem s.storage storageKeyIdentity ident)
        storageKeyToken data.token }
  if 0 < s1.reconnectAttempts then { s1 with reconnectAttempts := 0 } else s1

/-- `disconnect`: set the intentional flag, cancel a pending reconnect
timer, close and null the socket, zero the attempt counter, and fire the
`onDisconnect` observer callback. -/
def disconnect (s : ClientState) : ClientState × List Effect :=
  let s1 := { s with intentionalDisconnect := true, isReconnecting := false }
  let p1 : ClientState × List Effect :=
    if s1.reconnectTimeoutId then ({ s1 with reconnectTimeoutId := false },
      [Effect.clearReconnectTimer])
    else (s1, [])
  let p2 : ClientState × List Effect :=
    if p1.1.ws.isSome then ({ p1.1 with ws := none }, [Effect.closeSocket])
    else (p1.1, [])
  ({ p2.1 with reconnectAttempts := 0 }, p1.2 ++ p2.2 ++ [Effect.callbackDisconnect])

/-- The structured value `callReducer` resolves with: `{ok:false,error}`
on a server-declared failure, `{ok:true,data}` on success (`data = none`
models the `null` payload of an empty body). -/
inductive ReducerResult where
  | failure (error : String)
  | success (data : Option JSValue)
deriving DecidableEq

/-- The response-decoding tail of `callReducer` (after the header-rotation
step, which is independent of it): a non-2xx response becomes a returned
`failure` carrying the body text (with a fallback message for an empty
body), a 2xx response becomes a `success` whose payload is `null` for an
empty body and `JSON.parse` of the body otherwise.  The `Except` layer
records that only an unparsable 2xx body can escape as a thrown
exception. -/
def handleReducerResponse (jsonParse : String → Option JSValue) (reducerName : String)
    (respOk : Bool) (text : String) : Except String ReducerResult :=
  if !respOk then
    .ok (.failure (if text == "" then "Reducer " ++ reducerName ++ " failed" else text))
  else if text == "" then .ok (.success none)
  else
    match jsonParse text with
    | some v => .ok (.success (some v))
    | none => .error "SyntaxError"

/-- Emptying every table mirror store
(`for (const cache of Object.values(this.cache)) cache.clear()`). -/
def clearAllStores (cache : WireCache) : WireCache :=
  fun t => (cache t).map (fun _ => ([] : Store))

/-- `logoutUser` after its `logout_user` reducer call resolved with
`result` (success or failure alike): remove both persisted keys, null the
in-memory identity and token, clear every table store, disconnect the
socket, and hand `result` back to the caller unchanged. -/
def logoutUser (s : ClientState) (result : ReducerResult) :
    ClientState × List Effect × ReducerResult :=
  let s1 := { s with
      storage := storageRemoveItem (storageRemoveItem s.storage storageKeyIdentity)
        storageKeyToken,
      identity := .null,
      token := .null,
      cache := clearAllStores s.cache }
  let p := disconnect s1
  (p.1, p.2, result)

/-- Canonical mirrored `user` row as produced by the decoder (`identity`
is `none` when the wire value was absent/None). -/
structure User where
  id : Int
  identity : Option String
  username : String
  passwordHash : String
  role : String
  createdAt : Int
  lastSeen : Option Int
deriving DecidableEq

/-- Canonical mirrored `room_member` row. -/
structure RoomMember where
  id : Int
  roomId : Int
  playerId : Int
  role : String
  joinedAt : Int
deriving DecidableEq

/-- Canonical mirrored `player_category_preference` row. -/
structure PlayerCategoryPreference where
  id : Int
  playerId : Int
  categoryId : Int
deriving DecidableEq

/-- Canonical mirrored `player_unlocked_activity` row (denormalized copy
of the activity fields, plus the `isNew` flag). -/
structure PlayerUnlockedActivity where
  id : Int
  playerId : Int
  activityId : Int
  activityName : String
  activityDescription : String
  categoryId : Int
  categoryName : String
  kind : String
  xpRequired : Int
  xpReward : Int
  unlockedAt : Int
  isNew : Bool
deriving DecidableEq

/-- Canonical mirrored `player_not_wanted_activity` row. -/
structure PlayerNotWantedActivity where
  id : Int
  playerId : Int
  activityId : Int
  createdAt : Int
deriving DecidableEq

/-- Canonical mirrored `activity` row. -/
structure Activity where
  id : Int
  categoryId : Int
  kind : String
  name : String
  description : String
  instructions : String
  videoUrl : Option String
  xpRequired : Int
  xpReward : Int
deriving DecidableEq

/-- Canonical mirrored `category` row. -/
structure Category where
  id : Int
  name : String
  description : String
  displayOrder : Int
deriving DecidableEq

/-- The slice of the decoded table mirror that the room-availability
derivation and current-user resolution read, with each store listed in
its `Map.values()` iteration order. -/
structure ClientCache where
  user : List User
  room_member : List RoomMember
  player_category_preference : List PlayerCategoryPreference
  player_unlocked_activity : List PlayerUnlockedActivity
  player_not_wanted_activity : List PlayerNotWantedActivity
  activity : List Activity
  category : List Category

/-- `Set.add`: JavaScript set insertion, keeping first-insertion order. -/
def insertSet (s : List Int) (x : Int) : List Int :=
  if x ∈ s then s else s ++ [x]

/-- The per-member category set: ids of the member's
`player_category_preference` rows, in store order. -/
def memberCategorySet (prefs : List PlayerCategoryPreference) (playerId : Int) : List Int :=
  prefs.foldl (fun acc p => if p.playerId == playerId then insertSet acc p.categoryId else acc) []

/-- The per-member unlocked set: activity ids of the member's
`player_unlocked_activity` rows, in store order. -/
def memberUnlockedSet (uas : List PlayerUnlockedActivity) (playerId : Int) : List Int :=
  uas.foldl (fun acc ua => if ua.playerId == playerId then insertSet acc ua.activityId else acc) []

/-- One step of the `allowedCategories` loop: the first member seeds the
set, every further member intersects it with their own category set. -/
def allowedStep (prefs : List PlayerCategoryPreference) (acc : Option (List Int))
    (m : RoomMember) : Option (List Int) :=
  let mc := memberCategorySet prefs m.playerId
  match acc with
  | none => some mc
  | some l => some (l.filter (fun c => decide (c ∈ mc)))

/-- The `allowedCategories` accumulation of `getRoomAvailableActivities`:
starting from `null`, intersect every member's category set. -/
def allowedCategoriesOf (prefs : List PlayerCategoryPreference) (members : List RoomMember) :
    Option (List Int) :=
  members.foldl (allowedStep prefs) none

/-- One step of the `unlockedActivityIds` loop. -/
def unlockedStep (uas : List PlayerUnlockedActivity) (acc : Option (List Int))
    (m : RoomMember) : Option (List Int) :=
  let mu := memberUnlockedSet uas m.playerId
  match acc with
  | none => some mu
  | some l => some (l.filter (fun a => decide (a ∈ mu)))

/-- The `unlockedActivityIds` accumulation: starting from `null`,
intersect every member's unlocked set. -/
def unlockedIdsOf (uas : List PlayerUnlockedActivity) (members : List RoomMember) :
    Option (List Int) :=
  members.foldl (unlockedStep uas) none

/-- One step of the inner `notWanted` loop: add the row's activity id
when the row belongs to the member being processed. -/
def notWantedInnerStep (playerId : Int) (acc : List Int) (nw : PlayerNotWantedActivity) :
    List Int :=
  if nw.playerId == playerId then insertSet acc nw.activityId else acc

/-- The `notWantedActivityIds` accumulation: union over every member of
that member's `player_not_wanted_activity` ids. -/
def notWantedIdsOf (nws : List PlayerNotWantedActivity) (members : List RoomMember) :
    List Int :=
  members.foldl (fun acc m => nws.foldl (notWantedInnerStep m.playerId) acc) []

/-- One entry of the room-availability result, denormalized with the
category name (`'Unknown'` placeholder on a cache miss). -/
structure RoomAvailableActivity where
  id : Int
  name : String
  description : String
  instructions : String
  kind : String
  category : String
  categoryId : Int
  xpRequired : Int
  xpReward : Int
deriving DecidableEq

/-- `getRoomAvailableActivities`: empty for a memberless room; otherwise
the unlocked-intersection ids, minus the not-wanted union, restricted to
activities whose category lies in the preference intersection,
denormalized with the category name. -/
def getRoomAvailableActivities (c : ClientCache) (roomId : Int) :
    List RoomAvailableActivity :=
  let roomMembers := c.room_member.filter (fun m => m.roomId == roomId)
  if roomMembers.isEmpty then []
  else
    let allowedCategories := allowedCategoriesOf c.player_category_preference roomMembers
    let unlockedActivityIds := unlockedIdsOf c.player_unlocked_activity roomMembers
    let notWantedActivityIds := notWantedIdsOf c.player_not_wanted_activity roomMembers
    (unlockedActivityIds.getD []).filterMap (fun activityId =>
      if activityId ∈ notWantedActivityIds then none
      else
        match c.activity.find? (fun a => a.id == activityId) with
        | none => none
        | some activity =>
            let skipCategory : Bool :=
              match allowedCategories with
              | some allowed => !(decide (activity.categoryId ∈ allowed))
              | none => false
            if skipCategory then none
            else
              let category := c.category.find? (fun cat => cat.id == activity.categoryId)
              some { id := activity.id, name := activity.name,
                     description := activity.description,
                     instructions := activity.instructions,
                     kind := activity.kind,
                     category :=
                       match category with
                       | some cat => if cat.name == "" then "Unknown" else cat.name
                       | none => "Unknown",
                     categoryId := activity.categoryId,
                     xpRequired := activity.xpRequired,
                     xpReward := activity.xpReward })

/-- Removal of the first occurrence of `pat` from a character list, as
JavaScript `String.prototype.replace` does with a string pattern. -/
def removeFirstSub : List Char → List Char → List Char
  | [], _ => []
  | c :: cs, pat =>
      if pat.isPrefixOf (c :: cs) then (c :: cs).drop pat.length
      else c :: removeFirstSub cs pat

/-- JavaScript `s.replace('0x', '')`: strip the first `0x` occurrence. -/
def replaceFirst0x (s : String) : String :=
  String.mk (removeFirstSub s.data "0x".data)

/-- JavaScript `s.toLowerCase()` on the ASCII hex strings involved. -/
def jsToLowerCase (s : String) : String :=
  String.mk (s.data.map Char.toLower)

/-- The identity normalization both sides go through inside
`getUserFromCache`: strip one leading `0x` marker, then lowercase. -/
def normalizeIdentityHex (s : String) : String :=
  jsToLowerCase (replaceFirst0x s)

/-- `getCurrentUser`: `null` for a falsy session identity, else the first
`user` row whose `identity` field is strictly equal (`===`) to the
session identity. -/
def getCurrentUser (sessionIdentity : Option String) (users : List User) : Option User :=
  match sessionIdentity with
  | none => none
  | some i =>
      if i == "" then none
      else users.find? (fun u => u.identity == some i)

/-- `getUserFromCache`: `null` for a falsy session identity, else the
first `user` row matching the session identity after both sides are
normalized (strip `0x`, lowercase; a null row identity is read as `''`). -/
def getUserFromCache (sessionIdentity : Option String) (users : List User) : Option User :=
  match sessionIdentity with
  | none => none
  | some i =>
      if i == "" then none
      else users.find?
        (fun u => normalizeIdentityHex (u.identity.getD "") == normalizeIdentityHex i)

/-! Sample data used by the concrete witness instantiations below. -/

/-- A client state two reconnect attempts into an outage, socket open,
nothing intentional pending: the situation of the reconnection claims. -/
def sampleState : ClientState :=
  { identity := .null, token := .null, storage := [], ws := some true,
    reconnectAttempts := 2, maxReconnectAttempts := 3, reconnectDelay := 120000,
    isReconnecting := false, intentionalDisconnect := false, reconnectTimeoutId := false,
    subscriptionCounter := 0, cache := fun _ => none, categoriesLoaded := false }

/-- The same client with the retry budget exhausted. -/
def exhaustedState : ClientState :=
  { sampleState with reconnectAttempts := 3 }

/-- A sample `user` store holding one row whose identity is the plain
lowercase hex string. -/
def sampleUsers : List User :=
  [{ id := 1, identity := some "ab12", username := "alice", passwordHash := "h",
     role := "user", createdAt := 0, lastSeen := none }]

/-- Claim C9: for every reducer invocation, a non-2xx response with a
non-empty text body makes `callReducer` return the structured value
`{ok:false, error:<body text>}` without throwing, and a 2xx response with
an empty body makes it return `{ok:true, data:null}` rather than an
error. -/
theorem callReducer_failure_and_empty_success (jsonParse : String → Option JSValue)
    (reducerName text : String) (h : text ≠ "") :
    handleReducerResponse jsonParse reducerName false text = .ok (.failure text) ∧
    handleReducerResponse jsonParse reducerName true "" = .ok (.success none) := by
  refine ⟨?_, rfl⟩
  simp [handleReducerResponse, h]

theorem callReducer_failure_and_empty_success_witness :
    handleReducerResponse (fun _ => none) "award_xp" false "player not found"
        = .ok (.failure "player not found") ∧
    handleReducerResponse (fun _ => none) "award_xp" true "" = .ok (.success none) :=
  callReducer_failure_and_empty_success (fun _ => none) "award_xp" "player not found"
    (by decide)

/-- After removing a key, no entry for that key can be found. -/
theorem find?_remove_self_none (st : List (String × JSValue)) (k : String) :
    (storageRemoveItem st k).find? (fun e => e.1 == k) = none := by
  rw [List.find?_eq_none]
  intro x hx
  have hp := List.of_mem_filter hx
  simp only [Bool.not_eq_true'] at hp
  simp [hp]

/-- Removing one key never resurrects another: a key whose entry is
absent stays absent through a further removal. -/
theorem find?_remove_preserve_none (st : List (String × JSValue)) (k k2 : String)
    (h : st.find? (fun e => e.1 == k) = none) :
    (storageRemoveItem st k2).find? (fun e => e.1 == k) = none := by
  rw [List.find?_eq_none] at h ⊢
  intro x hx
  exact h x (List.mem_of_mem_filter hx)

/-- Looking up a key right after removing it yields `null`. -/
theorem storageGetItem_removeItem (st : List (String × JSValue)) (k : String) :
    storageGetItem (storageRemoveItem st k) k = .null := by
  unfold storageGetItem
  rw [find?_remove_self_none]

/-- Claim C10: `logoutUser` unconditionally clears the two persisted
storage keys, nulls the in-memory identity and token, empties every table
mirror store, and disconnects the socket, even when the `logout_user`
reducer call returned a failure; the reducer's result is returned to the
caller unchanged after this cleanup. -/
theorem logoutUser_cleans_up_unconditionally (s : ClientState) (result : ReducerResult) :
    (logoutUser s result).2.2 = result ∧
    storageGetItem (logoutUser s result).1.storage storageKeyIdentity = .null ∧
    storageGetItem (logoutUser s result).1.storage storageKeyToken = .null ∧
    (logoutUser s result).1.identity = .null ∧
    (logoutUser s result).1.token = .null ∧
    (logoutUser s result).1.cache = (fun t => (s.cache t).map (fun _ => ([] : Store))) ∧
    (logoutUser s result).1.ws = none ∧
    (logoutUser s result).1.intentionalDisconnect = true := by
  have hid : storageGetItem
      (storageRemoveItem (storageRemoveItem s.storage storageKeyIdentity) storageKeyToken)
      storageKeyIdentity = .null := by
    unfold storageGetItem
    rw [find?_remove_preserve_none _ _ _ (find?_remove_self_none _ _)]
  have htok : storageGetItem
      (storageRemoveItem (storageRemoveItem s.storage storageKeyIdentity) storageKeyToken)
      storageKeyToken = .null :=
    storageGetItem_removeItem _ _
  unfold logoutUser disconnect clearAllStores
  by_cases h1 : s.reconnectTimeoutId <;> cases hws : s.ws <;> simp_all

/-- Claim C3 (code bug): the `ws.onopen` handler alone already resets the
reconnect attempt counter to zero, before any identity/token handshake
message arrives — contradicting the source's own comments, which say the
reset must wait for the identity token. -/
theorem wsOnOpen_resets_attempts (s : ClientState) :
    (wsOnOpen s).1.reconnectAttempts = 0 := by
  unfold wsOnOpen sendSubscription
  by_cases h : (s.ws == some true) <;> simp [h]

/-- Claim C6 counterexample: with the retry budget exhausted,
`attemptReconnect` emits NO effect at all — in particular no observer
callback reporting the give-up (the source only logs to the console). -/
theorem attemptReconnect_no_giveup_callback :
    (attemptReconnect exhaustedState).2 = [] ∧
    (attemptReconnect exhaustedState).1.reconnectAttempts =
      exhaustedState.maxReconnectAttempts := by
  constructor <;> rfl

/-- Claim C6 (corrected): once the attempt counter has reached the
configured maximum, `attemptReconnect` stops retrying permanently — it
schedules no timer, leaves the state untouched apart from clearing
`isReconnecting`, and returns normally instead of throwing — but the
give-up is only logged to the console; no observer callback is invoked. -/
theorem attemptReconnect_gives_up_silently (s : ClientState)
    (h1 : s.isReconnecting = false) (h2 : s.intentionalDisconnect = false)
    (h3 : s.maxReconnectAttempts ≤ s.reconnectAttempts) :
    attemptReconnect s = ({ s with isReconnecting := false }, []) := by
  simp [attemptReconnect, h1, h2, h3]

theorem attemptReconnect_gives_up_silently_witness :
    attemptReconnect exhaustedState = ({ exhaustedState with isReconnecting := false }, []) :=
  attemptReconnect_gives_up_silently exhaustedState rfl rfl (by decide)

/-- Claim C7 counterexample: the handshake with
`identity = {"__identity__": "0xAB12"}` stores the string `"0xAB12"`
verbatim — not the stripped, lowercased `"ab12"` the claim expects. -/
theorem handleIdentityToken_keeps_marker_counterexample :
    (handleIdentityToken (fun _ => "") sampleState
        ⟨.obj [("__identity__", .str "0xAB12")], .str "tok"⟩).identity = .str "0xAB12" ∧
    JSValue.str "0xAB12" ≠ .str "ab12" := by
  constructor
  · rfl
  · decide

/-- Claim C7 (corrected): `handleIdentityToken` decodes
`{"__identity__": s}` to the string `s` verbatim — the leading `0x`
marker is NOT stripped and the case is NOT folded at decode time; the
strip/lowercase normalization happens only later, inside
`getUserFromCache`, when the stored identity is compared. -/
theorem handleIdentityToken_stores_verbatim (stringify : JSValue → String)
    (s : ClientState) (tok : JSValue) (hx : String) (h : hx ≠ "") :
    (handleIdentityToken stringify s ⟨.obj [("__identity__", .str hx)], tok⟩).identity
      = .str hx := by
  have hdec : decodeIdentity stringify (.obj [("__identity__", .str hx)]) = .str hx := by
    simp [decodeIdentity, getField, List.find?, truthy, h]
  unfold handleIdentityToken
  simp only [hdec]
  split <;> rfl

theorem handleIdentityToken_stores_verbatim_witness :
    (handleIdentityToken (fun _ => "") exhaustedState
        ⟨.obj [("__identity__", .str "0xAB12")], .str "tok"⟩).identity = .str "0xAB12" :=
  handleIdentityToken_stores_verbatim (fun _ => "") exhaustedState (.str "tok") "0xAB12"
    (by decide)

/-- Claim C8 counterexample: with stored session identity `"0xAB12"` and a
mirrored user identity `"ab12"`, `getCurrentUser` fails to find the user
(it compares with strict `===`), while `getUserFromCache` — where the
normalization actually lives — finds it. -/
theorem getCurrentUser_not_normalized_counterexample :
    getCurrentUser (some "0xAB12") sampleUsers = none ∧
    (getUserFromCache (some "0xAB12") sampleUsers).isSome = true := by
  constructor <;> decide

/-- Claim C8 (corrected): `getCurrentUser` compares the user identity to
the session identity with strict equality and performs NO normalization;
the case-insensitive, `0x`-prefix-agnostic comparison is performed by
`getUserFromCache` instead: any user it returns matches the session
identity after both sides are stripped of one leading `0x` and
lowercased, and it finds a user exactly when such a row exists. -/
theorem currentUser_resolution (users : List User) (i : String) (h : i ≠ "") :
    (∀ u, getCurrentUser (some i) users = some u → u.identity = some i) ∧
    (∀ u, getUserFromCache (some i) users = some u →
        normalizeIdentityHex (u.identity.getD "") = normalizeIdentityHex i) ∧
    ((getUserFromCache (some i) users).isSome ↔
        ∃ u ∈ users, normalizeIdentityHex (u.identity.getD "") = normalizeIdentityHex i) := by
  have hne : (i == "") = false := by simp [h]
  refine ⟨?_, ?_, ?_⟩
  · intro u hu
    simp only [getCurrentUser, hne, Bool.false_eq_true, if_false] at hu
    have := List.find?_some hu
    simpa using this
  · intro u hu
    simp only [getUserFromCache, hne, Bool.false_eq_true, if_false] at hu
    have := List.find?_some hu
    simpa using this
  · simp only [getUserFromCache, hne, Bool.false_eq_true, if_false]
    rw [List.find?_isSome]
    constructor
    · rintro ⟨u, hu, hp⟩
      exact ⟨u, hu, by simpa using hp⟩
    · rintro ⟨u, hu, hp⟩
      exact ⟨u, hu, by simpa using hp⟩

theorem currentUser_resolution_witness :
    ("0xAB12" : String) ≠ "" ∧ (getUserFromCache (some "0xAB12") sampleUsers).isSome := by
  have h := currentUser_resolution sampleUsers "0xAB12" (by decide)
  refine ⟨by decide, h.2.2.mpr ?_⟩
  exact ⟨{ id := 1, identity := some "ab12", username := "alice", passwordHash := "h",
           role := "user", createdAt := 0, lastSeen := none }, by decide, by decide⟩

/-- A member none of whose preference rows exist accumulates nothing. -/
theorem memberCategorySet_foldl_no_match (prefs : List PlayerCategoryPreference) (pid : Int)
    (acc : List Int) (h : ∀ p ∈ prefs, p.playerId ≠ pid) :
    prefs.foldl (fun acc p => if p.playerId == pid then insertSet acc p.categoryId else acc) acc
      = acc := by
  induction prefs generalizing acc with
  | nil => rfl
  | cons p ps ih =>
      have hp : (p.playerId == pid) = false := by simp [h p (by simp)]
      rw [List.foldl_cons, hp]
      exact ih acc (fun q hq => h q (by simp [hq]))

/-- A member with zero `player_category_preference` rows has an empty
category set. -/
theorem memberCategorySet_empty (prefs : List PlayerCategoryPreference) (pid : Int)
    (h : ∀ p ∈ prefs, p.playerId ≠ pid) :
    memberCategorySet prefs pid = [] :=
  memberCategorySet_foldl_no_match prefs pid [] h

/-- Once the category intersection is empty it stays empty. -/
theorem foldl_allowedStep_some_nil (prefs : List PlayerCategoryPreference) :
    ∀ ms : List RoomMember, ms.foldl (allowedStep prefs) (some []) = some []
  | [] => rfl
  | m :: ms => by
      have hstep : allowedStep prefs (some []) m = some [] := by simp [allowedStep]
      rw [List.foldl_cons, hstep]
      exact foldl_allowedStep_some_nil prefs ms

/-- If some processed member has an empty category set, the whole
intersection collapses to the empty set. -/
theorem foldl_allowedStep_empty_member (prefs : List PlayerCategoryPreference) :
    ∀ (ms : List RoomMember) (acc : Option (List Int)) (m : RoomMember), m ∈ ms →
      memberCategorySet prefs m.playerId = [] →
      ms.foldl (allowedStep prefs) acc = some []
  | [], _, _, hm, _ => absurd hm (by simp)
  | m0 :: ms, acc, m, hm, he => by
      rcases List.mem_cons.mp hm with h0 | h0
      · subst h0
        have hstep : allowedStep prefs acc m = some [] := by
          cases acc with
          | none => simp [allowedStep, he]
          | some l => simp [allowedStep, he]
        rw [List.foldl_cons, hstep]
        exact foldl_allowedStep_some_nil prefs ms
      · rw [List.foldl_cons]
        exact foldl_allowedStep_empty_member prefs ms _ m h0 he

/-- Claim C4: for every roomId, if the room has no `room_member` rows, or
at least one member of the room has zero `player_category_preference`
rows, then `getRoomAvailableActivities` returns the empty list — the
zero-preference member contributes an empty set to the category
intersection, emptying the whole result. -/
theorem getRoomAvailableActivities_empty_cases (c : ClientCache) (roomId : Int)
    (h : c.room_member.filter (fun m => m.roomId == roomId) = [] ∨
         ∃ m ∈ c.room_member, m.roomId = roomId ∧
           ∀ p ∈ c.player_category_preference, p.playerId ≠ m.playerId) :
    getRoomAvailableActivities c roomId = [] := by
  rcases h with h | ⟨m, hm, hroom, hp⟩
  · simp [getRoomAvailableActivities, h]
  · have hmem : m ∈ c.room_member.filter (fun m2 => m2.roomId == roomId) :=
      List.mem_filter.mpr ⟨hm, by simp [hroom]⟩
    have hmcs : memberCategorySet c.player_category_preference m.playerId = [] :=
      memberCategorySet_empty _ _ hp
    have hallowed : allowedCategoriesOf c.player_category_preference
        (c.room_member.filter (fun m2 => m2.roomId == roomId)) = some [] :=
      foldl_allowedStep_empty_member _ _ _ _ hmem hmcs
    have hne : (c.room_member.filter (fun m2 => m2.roomId == roomId)).isEmpty = false := by
      cases hfil : c.room_member.filter (fun m2 => m2.roomId == roomId) with
      | nil => rw [hfil] at hmem; cases hmem
      | cons x l => simp
    simp only [getRoomAvailableActivities, hne, Bool.false_eq_true, if_false, hallowed]
    refine List.filterMap_eq_nil_iff.mpr ?_
    intro aid _
    by_cases h1 : aid ∈ notWantedIdsOf c.player_not_wanted_activity
        (c.room_member.filter (fun m2 => m2.roomId == roomId))
    · simp [h1]
    · simp only [h1, if_false]
      cases hfind : c.activity.find? (fun a => a.id == aid) with
      | none => simp [hfind]
      | some act => simp [hfind, h1]

theorem getRoomAvailableActivities_empty_cases_witness :
    getRoomAvailableActivities
      { user := [], room_member := [⟨1, 7, 100, "Top", 0⟩, ⟨2, 7, 200, "Bottom", 0⟩],
        player_category_preference := [⟨1, 100, 1⟩],
        player_unlocked_activity :=
          [⟨1, 100, 2, "a2", "", 1, "c", "Activity", 0, 0, 0, false⟩,
           ⟨2, 200, 2, "a2", "", 1, "c", "Activity", 0, 0, 0, false⟩],
        player_not_wanted_activity := [],
        activity := [⟨2, 1, "Activity", "a2", "", "", none, 0, 0⟩],
        category := [⟨1, "c", "", 0⟩] } 7 = [] :=
  getRoomAvailableActivities_empty_cases _ 7
    (Or.inr ⟨⟨2, 7, 200, "Bottom", 0⟩, by decide, by decide, by decide⟩)

/-- Set insertion keeps the inserted element. -/
theorem mem_insertSet_self (s : List Int) (x : Int) : x ∈ insertSet s x := by
  unfold insertSet
  split <;> simp_all

/-- Set insertion keeps the existing elements. -/
theorem mem_insertSet_of_mem (s : List Int) (x y : Int) (h : x ∈ s) : x ∈ insertSet s y := by
  unfold insertSet
  split <;> simp_all

/-- The inner not-wanted fold never drops accumulated ids. -/
theorem mem_foldl_notWantedInner_of_mem (pid : Int) :
    ∀ (nws : List PlayerNotWantedActivity) (acc : List Int) (a : Int), a ∈ acc →
      a ∈ nws.foldl (notWantedInnerStep pid) acc
  | [], _, _, h => h
  | nw :: nws, acc, a, h => by
      rw [List.foldl_cons]
      refine mem_foldl_notWantedInner_of_mem pid nws _ a ?_
      unfold notWantedInnerStep
      split
      · exact mem_insertSet_of_mem _ _ _ h
      · exact h

/-- The inner not-wanted fold picks up every row of the member being
processed. -/
theorem mem_foldl_notWantedInner (pid : Int) :
    ∀ (nws : List PlayerNotWantedActivity) (acc : List Int) (nw : PlayerNotWantedActivity),
      nw ∈ nws → nw.playerId = pid →
      nw.activityId ∈ nws.foldl (notWantedInnerStep pid) acc
  | [], _, _, hnw, _ => absurd hnw (by simp)
  | nw0 :: nws, acc, nw, hnw, hpid => by
      rcases List.mem_cons.mp hnw with h0 | h0
      · subst h0
        rw [List.foldl_cons]
        refine mem_foldl_notWantedInner_of_mem pid nws _ _ ?_
        unfold notWantedInnerStep
        rw [if_pos (by simp [hpid])]
        exact mem_insertSet_self _ _
      · rw [List.foldl_cons]
        exact mem_foldl_notWantedInner pid nws _ nw h0 hpid

/-- The outer not-wanted fold never drops accumulated ids. -/
theorem mem_foldl_notWantedOuter_of_mem (nws : List PlayerNotWantedActivity) :
    ∀ (ms : List RoomMember) (acc : List Int) (a : Int), a ∈ acc →
      a ∈ ms.foldl (fun acc m => nws.foldl (notWantedInnerStep m.playerId) acc) acc
  | [], _, _, h => h
  | m :: ms, acc, a, h => by
      rw [List.foldl_cons]
      exact mem_foldl_notWantedOuter_of_mem nws ms _ a
        (mem_foldl_notWantedInner_of_mem m.playerId nws acc a h)

/-- Any not-wanted row of any processed member lands in the union. -/
theorem mem_notWantedIdsOf (nws : List PlayerNotWantedActivity) :
    ∀ (ms : List RoomMember) (acc : List Int) (m : RoomMember)
      (nw : PlayerNotWantedActivity), m ∈ ms → nw ∈ nws → nw.playerId = m.playerId →
      nw.activityId ∈ ms.foldl (fun acc m => nws.foldl (notWantedInnerStep m.playerId) acc) acc
  | [], _, _, _, hm, _, _ => absurd hm (by simp)
  | m0 :: ms, acc, m, nw, hm, hnw, hpid => by
      rcases List.mem_cons.mp hm with h0 | h0
      · subst h0
        rw [List.foldl_cons]
        exact mem_foldl_notWantedOuter_of_mem nws ms _ _
          (mem_foldl_notWantedInner m.playerId nws acc nw hnw hpid)
      · rw [List.foldl_cons]
        exact mem_notWantedIdsOf nws ms _ m nw h0 hnw hpid

/-- Claim C5: if any single member of the room has a
`player_not_wanted_activity` row for activity `a`, then `a` is absent
from `getRoomAvailableActivities(roomId)` — even when every member has
`a` unlocked and category-allowed, since the not-wanted union is applied
before any other filter can readmit the id. -/
theorem getRoomAvailableActivities_not_wanted_excluded (c : ClientCache) (roomId a : Int)
    (m : RoomMember) (hm : m ∈ c.room_member) (hroom : m.roomId = roomId)
    (nw : PlayerNotWantedActivity) (hnw : nw ∈ c.player_not_wanted_activity)
    (hpid : nw.playerId = m.playerId) (hact : nw.activityId = a) :
    ∀ act ∈ getRoomAvailableActivities c roomId, act.id ≠ a := by
  intro act hmem heq
  have hmf : m ∈ c.room_member.filter (fun m2 => m2.roomId == roomId) :=
    List.mem_filter.mpr ⟨hm, by simp [hroom]⟩
  have hnwm : a ∈ notWantedIdsOf c.player_not_wanted_activity
      (c.room_member.filter (fun m2 => m2.roomId == roomId)) :=
    hact ▸ mem_notWantedIdsOf c.player_not_wanted_activity _ [] m nw hmf hnw hpid
  simp only [getRoomAvailableActivities] at hmem
  split at hmem
  · cases hmem
  · rcases List.mem_filterMap.mp hmem with ⟨aid, hin, hf⟩
    by_cases h1 : aid ∈ notWantedIdsOf c.player_not_wanted_activity
        (c.room_member.filter (fun m2 => m2.roomId == roomId))
    · rw [if_pos h1] at hf
      cases hf
    · rw [if_neg h1] at hf
      cases hfind : c.activity.find? (fun a2 => a2.id == aid) with
      | none => rw [hfind] at hf; cases hf
      | some activity =>
          rw [hfind] at hf
          dsimp only at hf
          have hid : activity.id = aid := by
            have := List.find?_some hfind
            simpa using this
          by_cases hskip :
              (match allowedCategoriesOf c.player_category_preference
                  (List.filter (fun m => m.roomId == roomId) c.room_member) with
                | some allowed => !decide (activity.categoryId ∈ allowed)
                | none => false) = true
          · rw [if_pos hskip] at hf
            cases hf
          · rw [if_neg hskip] at hf
            have hactid : act.id = activity.id := by
              cases hf
              rfl
            have haid : aid = a := by rw [← hid, ← hactid, heq]
            exact h1 (haid ▸ hnwm)

/-- The claim C5 witness cache: both members have activities 2 and 3
unlocked and category-allowed, member 200 marks 3 not wanted; the room
result is exactly the activity-2 entry, to which the theorem applies. -/
def sampleCacheNotWanted : ClientCache :=
  { user := [], room_member := [⟨1, 7, 100, "Top", 0⟩, ⟨2, 7, 200, "Bottom", 0⟩],
    player_category_preference := [⟨1, 100, 1⟩, ⟨2, 200, 1⟩],
    player_unlocked_activity :=
      [⟨1, 100, 2, "a2", "", 1, "c", "Activity", 0, 0, 0, false⟩,
       ⟨2, 100, 3, "a3", "", 1, "c", "Activity", 0, 0, 0, false⟩,
       ⟨3, 200, 2, "a2", "", 1, "c", "Activity", 0, 0, 0, false⟩,
       ⟨4, 200, 3, "a3", "", 1, "c", "Activity", 0, 0, 0, false⟩],
    player_not_wanted_activity := [⟨1, 200, 3, 0⟩],
    activity := [⟨2, 1, "Activity", "a2", "", "", none, 0, 0⟩,
                 ⟨3, 1, "Activity", "a3", "", "", none, 0, 0⟩],
    category := [⟨1, "c", "", 0⟩] }

theorem getRoomAvailableActivities_not_wanted_excluded_witness :
    (⟨2, "a2", "", "", "Activity", "c", 1, 0, 0⟩ : RoomAvailableActivity).id ≠ 3 :=
  getRoomAvailableActivities_not_wanted_excluded sampleCacheNotWanted 7 3
    ⟨2, 7, 200, "Bottom", 0⟩ (by decide) (by decide) ⟨1, 200, 3, 0⟩ (by decide) (by decide)
    (by decide) ⟨2, "a2", "", "", "Activity", "c", 1, 0, 0⟩ (by decide)

/-- After an in-place `Map.set` overwrite, the key is found with the new
value. -/
theorem find?_map_replace (k v : JSValue) :
    ∀ m : Store, m.any (fun e => e.1 == k) = true →
      (m.map (fun e => if e.1 == k then (k, v) else e)).find? (fun e => e.1 == k)
        = some (k, v)
  | [], h => by cases h
  | e :: rest, h => by
      rw [List.map_cons]
      by_cases he : (e.1 == k) = true
      · rw [if_pos he]
        simp [List.find?]
      · rw [if_neg he]
        have hrest : rest.any (fun e => e.1 == k) = true := by
          rcases List.any_eq_true.mp h with ⟨x, hx, hpx⟩
          rcases List.mem_cons.mp hx with h0 | h0
          · subst h0; exact absurd hpx he
          · exact List.any_eq_true.mpr ⟨x, h0, hpx⟩
        simp only [List.find?, he]
        exact find?_map_replace k v rest hrest

/-- The in-place overwrite of one key leaves lookups of any other key
untouched. -/
theorem find?_map_replace_ne (k k2 v : JSValue) (hne : k ≠ k2) :
    ∀ m : Store,
      (m.map (fun e => if e.1 == k then (k, v) else e)).find? (fun e => e.1 == k2)
        = m.find? (fun e => e.1 == k2)
  | [] => rfl
  | e :: rest => by
      rw [List.map_cons]
      by_cases he : (e.1 == k) = true
      · have hek : e.1 = k := by simpa using he
        have h1 : ((k, v).1 == k2) = false := by simpa using hne
        have h2 : (e.1 == k2) = false := by simp [hek, hne]
        rw [if_pos he]
        simp only [List.find?, h1, h2]
        exact find?_map_replace_ne k k2 v hne rest
      · rw [if_neg he]
        cases hp : (e.1 == k2) with
        | false =>
            simp only [List.find?, hp]
            exact find?_map_replace_ne k k2 v hne rest
        | true => simp [List.find?, hp]

/-- `Map.get` after `Map.set` of the same key yields the stored value. -/
theorem mapGet_mapSet_self (m : Store) (k v : JSValue) :
    mapGet (mapSet m k v) k = some v := by
  unfold mapGet mapSet
  by_cases h : m.any (fun e => e.1 == k) = true
  · rw [if_pos h, find?_map_replace k v m h]
  · rw [if_neg h, List.find?_append]
    have hnone : m.find? (fun e => e.1 == k) = none := by
      rw [List.find?_eq_none]
      intro x hx hpx
      exact h (List.any_eq_true.mpr ⟨x, hx, hpx⟩)
    rw [hnone]
    simp [List.find?]

/-- `Map.get` after `Map.set` of a different key is unchanged. -/
theorem mapGet_mapSet_ne (m : Store) (k k2 v : JSValue) (hne : k ≠ k2) :
    mapGet (mapSet m k v) k2 = mapGet m k2 := by
  unfold mapGet mapSet
  by_cases h : m.any (fun e => e.1 == k) = true
  · rw [if_pos h, find?_map_replace_ne k k2 v hne m]
  · rw [if_neg h, List.find?_append]
    cases hm : m.find? (fun e => e.1 == k2) with
    | some e => rfl
    | none =>
        have hk : ((k, v).1 == k2) = false := by simpa using hne
        simp [List.find?, hk]

/-- Inserts whose parsed id differs from `k` leave the store entry for
`k` untouched. -/
theorem foldl_applyInsertRow_preserve (jp : String → Option JSValue) (t : String)
    (k : JSValue) :
    ∀ (rows : List JSValue) (st : Store),
      (∀ q ∈ rows, optChainId (parseRow jp t q) ≠ k) →
      mapGet (rows.foldl (applyInsertRow jp t) st) k = mapGet st k
  | [], _, _ => rfl
  | q :: rows, st, h => by
      rw [List.foldl_cons,
        foldl_applyInsertRow_preserve jp t k rows _ (fun q2 hq2 => h q2 (by simp [hq2]))]
      unfold applyInsertRow
      split
      · exact mapGet_mapSet_ne _ _ _ _ (h q (by simp))
      · rfl

/-- Claim C1: for every mirrored table and every batch whose delete list
and insert list both contain a row with the same id, after
`applyTableUpdate` finishes the table store maps that id to the inserted
row: all deletes of the batch are applied before any inserts, regardless
of the order of the arrays inside the payload. -/
theorem applyTableUpdate_delete_then_insert (jp : String → Option JSValue)
    (cache : WireCache) (tu : TableUpdate) (store : Store)
    (hstore : cache tu.table_name = some store) (n : Int) (pre post : List JSValue)
    (r : JSValue) (hsplit : flatInserts tu = pre ++ r :: post)
    (hid : optChainId (parseRow jp tu.table_name r) = .num n)
    (hpost : ∀ q ∈ post, optChainId (parseRow jp tu.table_name q) ≠ .num n)
    (_hdel : ∃ d ∈ flatDeletes tu, optChainId (parseRow jp tu.table_name d) = .num n) :
    ∃ store2, applyTableUpdate jp cache tu tu.table_name = some store2 ∧
      mapGet store2 (.num n) = some (parseRow jp tu.table_name r) := by
  unfold applyTableUpdate
  rw [hstore]
  dsimp only
  refine ⟨(flatInserts tu).foldl (applyInsertRow jp tu.table_name)
      ((flatDeletes tu).foldl (applyDeleteRow jp tu.table_name) store), by simp, ?_⟩
  rw [hsplit, List.foldl_append, List.foldl_cons]
  rw [foldl_applyInsertRow_preserve jp tu.table_name (.num n) post _ hpost]
  unfold applyInsertRow
  rw [hid]
  rw [if_pos (by rfl)]
  exact mapGet_mapSet_self _ _ _

/-- A one-table wire cache holding a single stale `category` row. -/
def sampleWireCache : WireCache :=
  fun t => if t == "category" then some [(.num 1, .str "old")] else none

/-- A batch that deletes and re-inserts the row with id 1 (an update
delivered as a delete+insert pair). -/
def sampleTableUpdate : TableUpdate :=
  { table_name := "category"
    inserts := some [.arr [.num 1, .str "NewName", .str "d", .num 0]]
    deletes := some [.arr [.num 1, .str "OldName", .str "d", .num 0]]
    updates := none }

theorem applyTableUpdate_delete_then_insert_witness :
    ∃ store2, applyTableUpdate (fun _ => none) sampleWireCache sampleTableUpdate
        sampleTableUpdate.table_name = some store2 ∧
      mapGet store2 (.num 1) =
        some (parseRow (fun _ => none) sampleTableUpdate.table_name
          (.arr [.num 1, .str "NewName", .str "d", .num 0])) :=
  applyTableUpdate_delete_then_insert (fun _ => none) sampleWireCache sampleTableUpdate
    [(.num 1, .str "old")] (by decide) 1 [] []
    (.arr [.num 1, .str "NewName", .str "d", .num 0]) (by decide) (by decide)
    (by simp) ⟨.arr [.num 1, .str "OldName", .str "d", .num 0], by decide, by decide⟩

/-- The subscribed table names, in the order the source declares its
cache stores. -/
def mirroredTableNames : List String :=
  ["user", "player", "room", "room_member", "room_invitation", "category", "activity",
   "player_activity", "player_unlocked_activity", "room_activity", "activity_participant",
   "player_not_wanted_activity", "user_category_preference", "player_category_preference"]

/-- The snake_case field names of each mirrored table, in positional
order: index `i` of the array shape carries the field named by entry
`i`, which the keyed-object shape addresses by that name. -/
def mirroredTableFields (t : String) : List String :=
  if t == "user" then ["id", "identity", "username", "password_hash", "role", "created_at", "last_seen"]
  else if t == "player" then ["id", "user_id", "username", "xp", "created_at"]
  else if t == "room" then ["id", "code", "name", "owner_id", "is_open", "created_at"]
  else if t == "room_member" then ["id", "room_id", "player_id", "role", "joined_at"]
  else if t == "room_invitation" then ["id", "room_id", "token", "created_by", "for_username", "status", "created_at", "accepted_by"]
  else if t == "category" then ["id", "name", "description", "display_order"]
  else if t == "activity" then ["id", "category_id", "kind", "name", "description", "instructions", "video_url", "xp_required", "xp_reward"]
  else if t == "player_activity" then ["id", "player_id", "activity_id", "status", "completed_at", "completed_by", "vouched", "rating"]
  else if t == "player_unlocked_activity" then ["id", "player_id", "activity_id", "activity_name", "activity_description", "category_id", "category_name", "kind", "xp_required", "xp_reward", "unlocked_at", "is_new"]
  else if t == "room_activity" then ["id", "room_id", "activity_id", "status", "started_by", "created_at", "started_at", "completed_at"]
  else if t == "activity_participant" then ["id", "room_activity_id", "player_id", "role", "xp_earned", "completed"]
  else if t == "player_not_wanted_activity" then ["id", "player_id", "activity_id", "created_at"]
  else if t == "user_category_preference" then ["id", "user_id", "category_id"]
  else if t == "player_category_preference" then ["id", "player_id", "category_id"]
  else []

theorem parseRow_objArr_user (v0 v1 v2 v3 v4 v5 v6 : JSValue)
    (h0 : unwrap v0 = v0) (_h1 : unwrap v1 = v1) (h2 : unwrap v2 = v2) (h3 : unwrap v3 = v3) (_h4 : unwrap v4 = v4) (_h5 : unwrap v5 = v5) (_h6 : unwrap v6 = v6) :
    parseRowObj "user" (.obj [("id", v0), ("identity", v1), ("username", v2), ("password_hash", v3), ("role", v4), ("created_at", v5), ("last_seen", v6)])
      = parseRowArr "user" (.arr [v0, v1, v2, v3, v4, v5, v6]) := by
  simp [parseRowObj, parseRowArr, getField, atIdx, List.find?, h0, h2, h3]

theorem parseRow_objArr_player (v0 v1 v2 v3 v4 : JSValue)
    (h0 : unwrap v0 = v0) (h1 : unwrap v1 = v1) (h2 : unwrap v2 = v2) (h3 : unwrap v3 = v3) (_h4 : unwrap v4 = v4) :
    parseRowObj "player" (.obj [("id", v0), ("user_id", v1), ("username", v2), ("xp", v3), ("created_at", v4)])
      = parseRowArr "player" (.arr [v0, v1, v2, v3, v4]) := by
  simp [parseRowObj, parseRowArr, getField, atIdx, List.find?, h0, h1, h2, h3]

theorem parseRow_objArr_room (v0 v1 v2 v3 v4 v5 : JSValue)
    (h0 : unwrap v0 = v0) (h1 : unwrap v1 = v1) (h2 : unwrap v2 = v2) (h3 : unwrap v3 = v3) (h4 : unwrap v4 = v4) (_h5 : unwrap v5 = v5) :
    parseRowObj "room" (.obj [("id", v0), ("code", v1), ("name", v2), ("owner_id", v3), ("is_open", v4), ("created_at", v5)])
      = parseRowArr "room" (.arr [v0, v1, v2, v3, v4, v5]) := by
  simp [parseRowObj, parseRowArr, getField, atIdx, List.find?, h0, h1, h2, h3, h4]

theorem parseRow_objArr_room_member (v0 v1 v2 v3 v4 : JSValue)
    (h0 : unwrap v0 = v0) (h1 : unwrap v1 = v1) (h2 : unwrap v2 = v2) (_h3 : unwrap v3 = v3) (_h4 : unwrap v4 = v4) :
    parseRowObj "room_member" (.obj [("id", v0), ("room_id", v1), ("player_id", v2), ("role", v3), ("joined_at", v4)])
      = parseRowArr "room_member" (.arr [v0, v1, v2, v3, v4]) := by
  simp [parseRowObj, parseRowArr, getField, atIdx, List.find?, h0, h1, h2]

theorem parseRow_objArr_room_invitation (v0 v1 v2 v3 v4 v5 v6 v7 : JSValue)
    (h0 : unwrap v0 = v0) (h1 : unwrap v1 = v1) (h2 : unwrap v2 = v2) (h3 : unwrap v3 = v3) (h4 : unwrap v4 = v4) (_h5 : unwrap v5 = v5) (_h6 : unwrap v6 = v6) (h7 : unwrap v7 = v7) :
    parseRowObj "room_invitation" (.obj [("id", v0), ("room_id", v1), ("token", v2), ("created_by", v3), ("for_username", v4), ("status", v5), ("created_at", v6), ("accepted_by", v7)])
      = parseRowArr "room_invitation" (.arr [v0, v1, v2, v3, v4, v5, v6, v7]) := by
  simp [parseRowObj, parseRowArr, getField, atIdx, List.find?, h0, h1, h2, h3, h4, h7]

theorem parseRow_objArr_category (v0 v1 v2 v3 : JSValue)
    (h0 : unwrap v0 = v0) (h1 : unwrap v1 = v1) (h2 : unwrap v2 = v2) (h3 : unwrap v3 = v3) :
    parseRowObj "category" (.obj [("id", v0), ("name", v1), ("description", v2), ("display_order", v3)])
      = parseRowArr "category" (.arr [v0, v1, v2, v3]) := by
  simp [parseRowObj, parseRowArr, getField, atIdx, List.find?, h0, h1, h2, h3]

theorem parseRow_objArr_activity (v0 v1 v2 v3 v4 v5 v6 v7 v8 : JSValue)
    (h0 : unwrap v0 = v0) (h1 : unwrap v1 = v1) (_h2 : unwrap v2 = v2) (h3 : unwrap v3 = v3) (h4 : unwrap v4 = v4) (h5 : unwrap v5 = v5) (_h6 : unwrap v6 = v6) (h7 : unwrap v7 = v7) (h8 : unwrap v8 = v8) :
    parseRowObj "activity" (.obj [("id", v0), ("category_id", v1), ("kind", v2), ("name", v3), ("description", v4), ("instructions", v5), ("video_url", v6), ("xp_required", v7), ("xp_reward", v8)])
      = parseRowArr "activity" (.arr [v0, v1, v2, v3, v4, v5, v6, v7, v8]) := by
  simp [parseRowObj, parseRowArr, getField, atIdx, List.find?, h0, h1, h3, h4, h5, h7, h8]

theorem parseRow_objArr_player_activity (v0 v1 v2 v3 v4 v5 v6 v7 : JSValue)
    (h0 : unwrap v0 = v0) (h1 : unwrap v1 = v1) (h2 : unwrap v2 = v2) (_h3 : unwrap v3 = v3) (_h4 : unwrap v4 = v4) (h5 : unwrap v5 = v5) (h6 : unwrap v6 = v6) (h7 : unwrap v7 = v7) :
    parseRowObj "player_activity" (.obj [("id", v0), ("player_id", v1), ("activity_id", v2), ("status", v3), ("completed_at", v4), ("completed_by", v5), ("vouched", v6), ("rating", v7)])
      = parseRowArr "player_activity" (.arr [v0, v1, v2, v3, v4, v5, v6, v7]) := by
  simp [parseRowObj, parseRowArr, getField, atIdx, List.find?, h0, h1, h2, h5, h6, h7]

theorem parseRow_objArr_player_unlocked_activity (v0 v1 v2 v3 v4 v5 v6 v7 v8 v9 v10 v11 : JSValue)
    (h0 : unwrap v0 = v0) (h1 : unwrap v1 = v1) (h2 : unwrap v2 = v2) (h3 : unwrap v3 = v3) (h4 : unwrap v4 = v4) (h5 : unwrap v5 = v5) (h6 : unwrap v6 = v6) (_h7 : unwrap v7 = v7) (h8 : unwrap v8 = v8) (h9 : unwrap v9 = v9) (_h10 : unwrap v10 = v10) (h11 : unwrap v11 = v11) :
    parseRowObj "player_unlocked_activity" (.obj [("id", v0), ("player_id", v1), ("activity_id", v2), ("activity_name", v3), ("activity_description", v4), ("category_id", v5), ("category_name", v6), ("kind", v7), ("xp_required", v8), ("xp_reward", v9), ("unlocked_at", v10), ("is_new", v11)])
      = parseRowArr "player_unlocked_activity" (.arr [v0, v1, v2, v3, v4, v5, v6, v7, v8, v9, v10, v11]) := by
  simp [parseRowObj, parseRowArr, getField, atIdx, List.find?, h0, h1, h2, h3, h4, h5, h6, h8, h9, h11]

theorem parseRow_objArr_room_activity (v0 v1 v2 v3 v4 v5 v6 v7 : JSValue)
    (h0 : unwrap v0 = v0) (h1 : unwrap v1 = v1) (h2 : unwrap v2 = v2) (_h3 : unwrap v3 = v3) (h4 : unwrap v4 = v4) (_h5 : unwrap v5 = v5) (_h6 : unwrap v6 = v6) (_h7 : unwrap v7 = v7) :
    parseRowObj "room_activity" (.obj [("id", v0), ("room_id", v1), ("activity_id", v2), ("status", v3), ("started_by", v4), ("created_at", v5), ("started_at", v6), ("completed_at", v7)])
      = parseRowArr "room_activity" (.arr [v0, v1, v2, v3, v4, v5, v6, v7]) := by
  simp [parseRowObj, parseRowArr, getField, atIdx, List.find?, h0, h1, h2, h4]

theorem parseRow_objArr_activity_participant (v0 v1 v2 v3 v4 v5 : JSValue)
    (h0 : unwrap v0 = v0) (h1 : unwrap v1 = v1) (h2 : unwrap v2 = v2) (_h3 : unwrap v3 = v3) (h4 : unwrap v4 = v4) (h5 : unwrap v5 = v5) :
    parseRowObj "activity_participant" (.obj [("id", v0), ("room_activity_id", v1), ("player_id", v2), ("role", v3), ("xp_earned", v4), ("completed", v5)])
      = parseRowArr "activity_participant" (.arr [v0, v1, v2, v3, v4, v5]) := by
  simp [parseRowObj, parseRowArr, getField, atIdx, List.find?, h0, h1, h2, h4, h5]

theorem parseRow_objArr_player_not_wanted_activity (v0 v1 v2 v3 : JSValue)
    (h0 : unwrap v0 = v0) (h1 : unwrap v1 = v1) (h2 : unwrap v2 = v2) (_h3 : unwrap v3 = v3) :
    parseRowObj "player_not_wanted_activity" (.obj [("id", v0), ("player_id", v1), ("activity_id", v2), ("created_at", v3)])
      = parseRowArr "player_not_wanted_activity" (.arr [v0, v1, v2, v3]) := by
  simp [parseRowObj, parseRowArr, getField, atIdx, List.find?, h0, h1, h2]

theorem parseRow_objArr_user_category_preference (v0 v1 v2 : JSValue)
    (h0 : unwrap v0 = v0) (h1 : unwrap v1 = v1) (h2 : unwrap v2 = v2) :
    parseRowObj "user_category_preference" (.obj [("id", v0), ("user_id", v1), ("category_id", v2)])
      = parseRowArr "user_category_preference" (.arr [v0, v1, v2]) := by
  simp [parseRowObj, parseRowArr, getField, atIdx, List.find?, h0, h1, h2]

theorem parseRow_objArr_player_category_preference (v0 v1 v2 : JSValue)
    (h0 : unwrap v0 = v0) (h1 : unwrap v1 = v1) (h2 : unwrap v2 = v2) :
    parseRowObj "player_category_preference" (.obj [("id", v0), ("player_id", v1), ("category_id", v2)])
      = parseRowArr "player_category_preference" (.arr [v0, v1, v2]) := by
  simp [parseRowObj, parseRowArr, getField, atIdx, List.find?, h0, h1, h2]

/-- Peeling one element off a list of known positive length. -/
theorem exists_cons_of_length_eq_succ {α : Type} :
    ∀ (l : List α) (n : Nat), l.length = n + 1 → ∃ a t, l = a :: t ∧ t.length = n
  | [], _, h => by simp at h
  | a :: t, n, h => ⟨a, t, rfl, by simpa using h⟩

/-- Claim C2 counterexample: a `category` row whose `name` field arrives
singleton-wrapped (`["A"]`) decodes differently through the two wire
shapes — the keyed-object branch keeps the wrapper (it only unwraps
designated identity/timestamp fields), the positional branch unwraps
every field. -/
theorem parseRow_object_array_disagree_counterexample :
    parseRowCore "category" (.obj ((mirroredTableFields "category").zip
        [.num 1, .arr [.str "A"], .str "d", .num 2]))
      ≠ parseRowCore "category" (.arr [.num 1, .arr [.str "A"], .str "d", .num 2]) := by
  decide

/-- Claim C2 (corrected): the keyed-object branch and the positional
branch of `parseRow` agree field-for-field on corresponding inputs whose
field values are plain (fixed points of `unwrap`, i.e. not
option-wrapped and not singleton-wrapped).  For wrapped values the
branches can disagree, because the object branch applies `unwrap` only to
designated identity/timestamp fields while the array branch applies it to
every non-variant field (see the counterexample). -/
theorem parseRow_object_array_agree (t : String) (ht : t ∈ mirroredTableNames)
    (vs : List JSValue) (hlen : vs.length = (mirroredTableFields t).length)
    (hplain : ∀ v ∈ vs, unwrap v = v) :
    parseRowCore t (.obj ((mirroredTableFields t).zip vs)) = parseRowCore t (.arr vs) := by
  simp only [mirroredTableNames, List.mem_cons, List.not_mem_nil, or_false] at ht
  rcases ht with rfl | rfl | rfl | rfl | rfl | rfl | rfl | rfl | rfl | rfl | rfl | rfl | rfl | rfl
  · simp only [mirroredTableFields] at hlen
    norm_num at hlen
    have hl0 := hlen
    obtain ⟨v0, vs, rfl, hl1⟩ := exists_cons_of_length_eq_succ vs 6 hl0
    obtain ⟨v1, vs, rfl, hl2⟩ := exists_cons_of_length_eq_succ vs 5 hl1
    obtain ⟨v2, vs, rfl, hl3⟩ := exists_cons_of_length_eq_succ vs 4 hl2
    obtain ⟨v3, vs, rfl, hl4⟩ := exists_cons_of_length_eq_succ vs 3 hl3
    obtain ⟨v4, vs, rfl, hl5⟩ := exists_cons_of_length_eq_succ vs 2 hl4
    obtain ⟨v5, vs, rfl, hl6⟩ := exists_cons_of_length_eq_succ vs 1 hl5
    obtain ⟨v6, vs, rfl, hl7⟩ := exists_cons_of_length_eq_succ vs 0 hl6
    obtain rfl := List.length_eq_zero.mp hl7
    exact parseRow_objArr_user v0 v1 v2 v3 v4 v5 v6 (hplain v0 (by simp)) (hplain v1 (by simp)) (hplain v2 (by simp)) (hplain v3 (by simp)) (hplain v4 (by simp)) (hplain v5 (by simp)) (hplain v6 (by simp))
  · simp only [mirroredTableFields] at hlen
    norm_num at hlen
    have hl0 := hlen
    obtain ⟨v0, vs, rfl, hl1⟩ := exists_cons_of_length_eq_succ vs 4 hl0
    obtain ⟨v1, vs, rfl, hl2⟩ := exists_cons_of_length_eq_succ vs 3 hl1
    obtain ⟨v2, vs, rfl, hl3⟩ := exists_cons_of_length_eq_succ vs 2 hl2
    obtain ⟨v3, vs, rfl, hl4⟩ := exists_cons_of_length_eq_succ vs 1 hl3
    obtain ⟨v4, vs, rfl, hl5⟩ := exists_cons_of_length_eq_succ vs 0 hl4
    obtain rfl := List.length_eq_zero.mp hl5
    exact parseRow_objArr_player v0 v1 v2 v3 v4 (hplain v0 (by simp)) (hplain v1 (by simp)) (hplain v2 (by simp)) (hplain v3 (by simp)) (hplain v4 (by simp))
  · simp only [mirroredTableFields] at hlen
    norm_num at hlen
    have hl0 := hlen
    obtain ⟨v0, vs, rfl, hl1⟩ := exists_cons_of_length_eq_succ vs 5 hl0
    obtain ⟨v1, vs, rfl, hl2⟩ := exists_cons_of_length_eq_succ vs 4 hl1
    obtain ⟨v2, vs, rfl, hl3⟩ := exists_cons_of_length_eq_succ vs 3 hl2
    obtain ⟨v3, vs, rfl, hl4⟩ := exists_cons_of_length_eq_succ vs 2 hl3
    obtain ⟨v4, vs, rfl, hl5⟩ := exists_cons_of_length_eq_succ vs 1 hl4
    obtain ⟨v5, vs, rfl, hl6⟩ := exists_cons_of_length_eq_succ vs 0 hl5
    obtain rfl := List.length_eq_zero.mp hl6
    exact parseRow_objArr_room v0 v1 v2 v3 v4 v5 (hplain v0 (by simp)) (hplain v1 (by simp)) (hplain v2 (by simp)) (hplain v3 (by simp)) (hplain v4 (by simp)) (hplain v5 (by simp))
  · simp only [mirroredTableFields] at hlen
    norm_num at hlen
    have hl0 := hlen
    obtain ⟨v0, vs, rfl, hl1⟩ := exists_cons_of_length_eq_succ vs 4 hl0
    obtain ⟨v1, vs, rfl, hl2⟩ := exists_cons_of_length_eq_succ vs 3 hl1
    obtain ⟨v2, vs, rfl, hl3⟩ := exists_cons_of_length_eq_succ vs 2 hl2
    obtain ⟨v3, vs, rfl, hl4⟩ := exists_cons_of_length_eq_succ vs 1 hl3
    obtain ⟨v4, vs, rfl, hl5⟩ := exists_cons_of_length_eq_succ vs 0 hl4
    obtain rfl := List.length_eq_zero.mp hl5
    exact parseRow_objArr_room_member v0 v1 v2 v3 v4 (hplain v0 (by simp)) (hplain v1 (by simp)) (hplain v2 (by simp)) (hplain v3 (by simp)) (hplain v4 (by simp))
  · simp only [mirroredTableFields] at hlen
    norm_num at hlen
    have hl0 := hlen
    obtain ⟨v0, vs, rfl, hl1⟩ := exists_cons_of_length_eq_succ vs 7 hl0
    obtain ⟨v1, vs, rfl, hl2⟩ := exists_cons_of_length_eq_succ vs 6 hl1
    obtain ⟨v2, vs, rfl, hl3⟩ := exists_cons_of_length_eq_succ vs 5 hl2
    obtain ⟨v3, vs, rfl, hl4⟩ := exists_cons_of_length_eq_succ vs 4 hl3
    obtain ⟨v4, vs, rfl, hl5⟩ := exists_cons_of_length_eq_succ vs 3 hl4
    obtain ⟨v5, vs, rfl, hl6⟩ := exists_cons_of_length_eq_succ vs 2 hl5
    obtain ⟨v6, vs, rfl, hl7⟩ := exists_cons_of_length_eq_succ vs 1 hl6
    obtain ⟨v7, vs, rfl, hl8⟩ := exists_cons_of_length_eq_succ vs 0 hl7
    obtain rfl := List.length_eq_zero.mp hl8
    exact parseRow_objArr_room_invitation v0 v1 v2 v3 v4 v5 v6 v7 (hplain v0 (by simp)) (hplain v1 (by simp)) (hplain v2 (by simp)) (hplain v3 (by simp)) (hplain v4 (by simp)) (hplain v5 (by simp)) (hplain v6 (by simp)) (hplain v7 (by simp))
  · simp only [mirroredTableFields] at hlen
    norm_num at hlen
    have hl0 := hlen
    obtain ⟨v0, vs, rfl, hl1⟩ := exists_cons_of_length_eq_succ vs 3 hl0
    obtain ⟨v1, vs, rfl, hl2⟩ := exists_cons_of_length_eq_succ vs 2 hl1
    obtain ⟨v2, vs, rfl, hl3⟩ := exists_cons_of_length_eq_succ vs 1 hl2
    obtain ⟨v3, vs, rfl, hl4⟩ := exists_cons_of_length_eq_succ vs 0 hl3
    obtain rfl := List.length_eq_zero.mp hl4
    exact parseRow_objArr_category v0 v1 v2 v3 (hplain v0 (by simp)) (hplain v1 (by simp)) (hplain v2 (by simp)) (hplain v3 (by simp))
  · simp only [mirroredTableFields] at hlen
    norm_num at hlen
    have hl0 := hlen
    obtain ⟨v0, vs, rfl, hl1⟩ := exists_cons_of_length_eq_succ vs 8 hl0
    obtain ⟨v1, vs, rfl, hl2⟩ := exists_cons_of_length_eq_succ vs 7 hl1
    obtain ⟨v2, vs, rfl, hl3⟩ := exists_cons_of_length_eq_succ vs 6 hl2
    obtain ⟨v3, vs, rfl, hl4⟩ := exists_cons_of_length_eq_succ vs 5 hl3
    obtain ⟨v4, vs, rfl, hl5⟩ := exists_cons_of_length_eq_succ vs 4 hl4
    obtain ⟨v5, vs, rfl, hl6⟩ := exists_cons_of_length_eq_succ vs 3 hl5
    obtain ⟨v6, vs, rfl, hl7⟩ := exists_cons_of_length_eq_succ vs 2 hl6
    obtain ⟨v7, vs, rfl, hl8⟩ := exists_cons_of_length_eq_succ vs 1 hl7
    obtain ⟨v8, vs, rfl, hl9⟩ := exists_cons_of_length_eq_succ vs 0 hl8
    obtain rfl := List.length_eq_zero.mp hl9
    exact parseRow_objArr_activity v0 v1 v2 v3 v4 v5 v6 v7 v8 (hplain v0 (by simp)) (hplain v1 (by simp)) (hplain v2 (by simp)) (hplain v3 (by simp)) (hplain v4 (by simp)) (hplain v5 (by simp)) (hplain v6 (by simp)) (hplain v7 (by simp)) (hplain v8 (by simp))
  · simp only [mirroredTableFields] at hlen
    norm_num at hlen
    have hl0 := hlen
    obtain ⟨v0, vs, rfl, hl1⟩ := exists_cons_of_length_eq_succ vs 7 hl0
    obtain ⟨v1, vs, rfl, hl2⟩ := exists_cons_of_length_eq_succ vs 6 hl1
    obtain ⟨v2, vs, rfl, hl3⟩ := exists_cons_of_length_eq_succ vs 5 hl2
    obtain ⟨v3, vs, rfl, hl4⟩ := exists_cons_of_length_eq_succ vs 4 hl3
    obtain ⟨v4, vs, rfl, hl5⟩ := exists_cons_of_length_eq_succ vs 3 hl4
    obtain ⟨v5, vs, rfl, hl6⟩ := exists_cons_of_length_eq_succ vs 2 hl5
    obtain ⟨v6, vs, rfl, hl7⟩ := exists_cons_of_length_eq_succ vs 1 hl6
    obtain ⟨v7, vs, rfl, hl8⟩ := exists_cons_of_length_eq_succ vs 0 hl7
    obtain rfl := List.length_eq_zero.mp hl8
    exact parseRow_objArr_player_activity v0 v1 v2 v3 v4 v5 v6 v7 (hplain v0 (by simp)) (hplain v1 (by simp)) (hplain v2 (by simp)) (hplain v3 (by simp)) (hplain v4 (by simp)) (hplain v5 (by simp)) (hplain v6 (by simp)) (hplain v7 (by simp))
  · simp only [mirroredTableFields] at hlen
    norm_num at hlen
    have hl0 := hlen
    obtain ⟨v0, vs, rfl, hl1⟩ := exists_cons_of_length_eq_succ vs 11 hl0
    obtain ⟨v1, vs, rfl, hl2⟩ := exists_cons_of_length_eq_succ vs 10 hl1
    obtain ⟨v2, vs, rfl, hl3⟩ := exists_cons_of_length_eq_succ vs 9 hl2
    obtain ⟨v3, vs, rfl, hl4⟩ := exists_cons_of_length_eq_succ vs 8 hl3
    obtain ⟨v4, vs, rfl, hl5⟩ := exists_cons_of_length_eq_succ vs 7 hl4
    obtain ⟨v5, vs, rfl, hl6⟩ := exists_cons_of_length_eq_succ vs 6 hl5
    obtain ⟨v6, vs, rfl, hl7⟩ := exists_cons_of_length_eq_succ vs 5 hl6
    obtain ⟨v7, vs, rfl, hl8⟩ := exists_cons_of_length_eq_succ vs 4 hl7
    obtain ⟨v8, vs, rfl, hl9⟩ := exists_cons_of_length_eq_succ vs 3 hl8
    obtain ⟨v9, vs, rfl, hl10⟩ := exists_cons_of_length_eq_succ vs 2 hl9
    obtain ⟨v10, vs, rfl, hl11⟩ := exists_cons_of_length_eq_succ vs 1 hl10
    obtain ⟨v11, vs, rfl, hl12⟩ := exists_cons_of_length_eq_succ vs 0 hl11
    obtain rfl := List.length_eq_zero.mp hl12
    exact parseRow_objArr_player_unlocked_activity v0 v1 v2 v3 v4 v5 v6 v7 v8 v9 v10 v11 (hplain v0 (by simp)) (hplain v1 (by simp)) (hplain v2 (by simp)) (hplain v3 (by simp)) (hplain v4 (by simp)) (hplain v5 (by simp)) (hplain v6 (by simp)) (hplain v7 (by simp)) (hplain v8 (by simp)) (hplain v9 (by simp)) (hplain v10 (by simp)) (hplain v11 (by simp))
  · simp only [mirroredTableFields] at hlen
    norm_num at hlen
    have hl0 := hlen
    obtain ⟨v0, vs, rfl, hl1⟩ := exists_cons_of_length_eq_succ vs 7 hl0
    obtain ⟨v1, vs, rfl, hl2⟩ := exists_cons_of_length_eq_succ vs 6 hl1
    obtain ⟨v2, vs, rfl, hl3⟩ := exists_cons_of_length_eq_succ vs 5 hl2
    obtain ⟨v3, vs, rfl, hl4⟩ := exists_cons_of_length_eq_succ vs 4 hl3
    obtain ⟨v4, vs, rfl, hl5⟩ := exists_cons_of_length_eq_succ vs 3 hl4
    obtain ⟨v5, vs, rfl, hl6⟩ := exists_cons_of_length_eq_succ vs 2 hl5
    obtain ⟨v6, vs, rfl, hl7⟩ := exists_cons_of_length_eq_succ vs 1 hl6
    obtain ⟨v7, vs, rfl, hl8⟩ := exists_cons_of_length_eq_succ vs 0 hl7
    obtain rfl := List.length_eq_zero.mp hl8
    exact parseRow_objArr_room_activity v0 v1 v2 v3 v4 v5 v6 v7 (hplain v0 (by simp)) (hplain v1 (by simp)) (hplain v2 (by simp)) (hplain v3 (by simp)) (hplain v4 (by simp)) (hplain v5 (by simp)) (hplain v6 (by simp)) (hplain v7 (by simp))
  · simp only [mirroredTableFields] at hlen
    norm_num at hlen
    have hl0 := hlen
    obtain ⟨v0, vs, rfl, hl1⟩ := exists_cons_of_length_eq_succ vs 5 hl0
    obtain ⟨v1, vs, rfl, hl2⟩ := exists_cons_of_length_eq_succ vs 4 hl1
    obtain ⟨v2, vs, rfl, hl3⟩ := exists_cons_of_length_eq_succ vs 3 hl2
    obtain ⟨v3, vs, rfl, hl4⟩ := exists_cons_of_length_eq_succ vs 2 hl3
    obtain ⟨v4, vs, rfl, hl5⟩ := exists_cons_of_length_eq_succ vs 1 hl4
    obtain ⟨v5, vs, rfl, hl6⟩ := exists_cons_of_length_eq_succ vs 0 hl5
    obtain rfl := List.length_eq_zero.mp hl6
    exact parseRow_objArr_activity_participant v0 v1 v2 v3 v4 v5 (hplain v0 (by simp)) (hplain v1 (by simp)) (hplain v2 (by simp)) (hplain v3 (by simp)) (hplain v4 (by simp)) (hplain v5 (by simp))
  · simp only [mirroredTableFields] at hlen
    norm_num at hlen
    have hl0 := hlen
    obtain ⟨v0, vs, rfl, hl1⟩ := exists_cons_of_length_eq_succ vs 3 hl0
    obtain ⟨v1, vs, rfl, hl2⟩ := exists_cons_of_length_eq_succ vs 2 hl1
    obtain ⟨v2, vs, rfl, hl3⟩ := exists_cons_of_length_eq_succ vs 1 hl2
    obtain ⟨v3, vs, rfl, hl4⟩ := exists_cons_of_length_eq_succ vs 0 hl3
    obtain rfl := List.length_eq_zero.mp hl4
    exact parseRow_objArr_player_not_wanted_activity v0 v1 v2 v3 (hplain v0 (by simp)) (hplain v1 (by simp)) (hplain v2 (by simp)) (hplain v3 (by simp))
  · simp only [mirroredTableFields] at hlen
    norm_num at hlen
    have hl0 := hlen
    obtain ⟨v0, vs, rfl, hl1⟩ := exists_cons_of_length_eq_succ vs 2 hl0
    obtain ⟨v1, vs, rfl, hl2⟩ := exists_cons_of_length_eq_succ vs 1 hl1
    obtain ⟨v2, vs, rfl, hl3⟩ := exists_cons_of_length_eq_succ vs 0 hl2
    obtain rfl := List.length_eq_zero.mp hl3
    exact parseRow_objArr_user_category_preference v0 v1 v2 (hplain v0 (by simp)) (hplain v1 (by simp)) (hplain v2 (by simp))
  · simp only [mirroredTableFields] at hlen
    norm_num at hlen
    have hl0 := hlen
    obtain ⟨v0, vs, rfl, hl1⟩ := exists_cons_of_length_eq_succ vs 2 hl0
    obtain ⟨v1, vs, rfl, hl2⟩ := exists_cons_of_length_eq_succ vs 1 hl1
    obtain ⟨v2, vs, rfl, hl3⟩ := exists_cons_of_length_eq_succ vs 0 hl2
    obtain rfl := List.length_eq_zero.mp hl3
    exact parseRow_objArr_player_category_preference v0 v1 v2 (hplain v0 (by simp)) (hplain v1 (by simp)) (hplain v2 (by simp))

theorem parseRow_object_array_agree_witness :
    parseRowCore "category" (.obj ((mirroredTableFields "category").zip
        [.num 1, .str "A", .str "d", .num 2]))
      = parseRowCore "category" (.arr [.num 1, .str "A", .str "d", .num 2]) :=
  parseRow_object_array_agree "category" (by decide)
    [.num 1, .str "A", .str "d", .num 2] (by decide) (by decide)
